import Mathlib

/-!
Shallow embedding of the sh-function library (type-erased callable
containers): `sh::copyable_function`, `sh::move_only_function`,
`sh::inplace_copyable_function`, `sh::inplace_move_only_function`,
`sh::function_ptr` and `sh::function_ref`.

Payload objects (the stored callables) are modelled after the `counter`
payload used by the repository's tests: an object with an observable
behaviour, a uniquely owned resource that its destructor releases exactly
once, and a move count.  Copy construction produces an independent owner
(a fresh resource); move construction transfers the resource and leaves a
husk whose destructor releases nothing.

Machine-level facts that the code relies on are made explicit:
the two storage unions (`copyable_function_storage`,
`move_only_function_storage`) are byte buffers that hold either a live
inline object, a pointer to a heap allocation, or indeterminate bytes;
reinterpreting indeterminate bytes (or pointer bytes) as a callable
yields no valid object, modelled by the `garbage` payload.
-/

/-- Result of invoking a container or a stored callable: a normal result,
a thrown `std::bad_function_call`, a call to `std::terminate`, or
undefined behaviour (invoking a destroyed or invalid object). -/
inductive CallResult where
  | ok (value : Nat)
  | bad_call
  | terminated
  | ub
deriving DecidableEq, Repr

/-- A stored callable object.  `obj behavior resource moves` is a live
object: invoking it yields `behavior`, destroying it releases `resource`,
and `moves` counts how often it has been move-constructed from.
`garbage` stands for the content of storage that holds no live object
(indeterminate bytes, or bytes of the wrong type). -/
inductive PayloadVal where
  | obj (behavior resource moves : Nat)
  | garbage
deriving DecidableEq, Repr

/-- Invoke a stored callable: a live object returns its behaviour,
invoking garbage is undefined behaviour. -/
def PayloadVal.invoke : PayloadVal → CallResult
  | .obj b _ _ => .ok b
  | .garbage => .ub

/-- Resources released when the object's destructor runs.  A live object
releases its resource exactly once; destroying garbage releases nothing
that the model tracks. -/
def PayloadVal.releases : PayloadVal → List Nat
  | .obj _ r _ => [r]
  | .garbage => []

/-- Move construction from a stored callable: the behaviour and the owned
resource transfer, the move count increments.  (The husk left behind is
destroyed by the vtable's move operation and releases nothing.) -/
def PayloadVal.moved : PayloadVal → PayloadVal
  | .obj b r m => .obj b r (m + 1)
  | .garbage => .garbage

/-- Global state outside any one container: the heap of allocated
callables (address, object), an allocation counter, a fresh-resource
counter for copies, and the list of released resources in order. -/
structure World where
  nextAddr : Nat
  heap : List (Nat × PayloadVal)
  nextRes : Nat
  released : List Nat
deriving DecidableEq, Repr

/-- Look an address up in the heap. -/
def heapLookup (a : Nat) : List (Nat × PayloadVal) → Option PayloadVal
  | [] => none
  | (b, v) :: rest => if b = a then some v else heapLookup a rest

/-- Remove an address from the heap. -/
def heapRemove (a : Nat) : List (Nat × PayloadVal) → List (Nat × PayloadVal)
  | [] => []
  | (b, v) :: rest => if b = a then rest else (b, v) :: heapRemove a rest

/-- Model of `delete static_cast<Callable*>(p)`: destroy the heap object
at `a` (releasing its resource) and return the allocation. -/
def heapFree (a : Nat) (w : World) : World :=
  match heapLookup a w.heap with
  | some v => { w with heap := heapRemove a w.heap,
                       released := w.released ++ v.releases }
  | none => w

/-- Copy construction from a stored callable: an independent owner is
produced, holding a fresh resource and a move count of zero.  Copying
garbage is undefined behaviour and yields garbage. -/
def PayloadVal.copied : PayloadVal → World → PayloadVal × World
  | .obj b _ _, w => (.obj b w.nextRes 0, { w with nextRes := w.nextRes + 1 })
  | .garbage, w => (.garbage, w)

/-- Compile-time description of a concrete callable type: its size and
whether `std::is_nothrow_move_constructible_v` holds for it. -/
structure CallableType where
  size : Nat
  is_nothrow_move_constructible : Bool
deriving DecidableEq, Repr

/-- The per-concrete-type operation table.  One singleton exists per
callable type, plus the distinguished empty (null) table; a container
stores a pointer to one of these. -/
inductive vtable where
  | null
  | callable (ty : CallableType)
deriving DecidableEq, Repr

/-- Dereference a container's table pointer.  `none` models a null
pointer, which the code never stores (see the claim-C9 theorem); this
branch is unreachable from the container operations. -/
def deref_vtable : Option vtable → vtable
  | some vt => vt
  | none => .null

/-- sizeof(void*) on the modelled LP64 platform. -/
def ptr_size : Nat := 8

/-- Internal storage union of `sh::detail::copyable_function`
(sh/copyable_function.hpp lines 65-85): an inline byte buffer
(`m_inplace`) overlaid with a pointer (`m_allocated`).
`inplace v` is a live object in the buffer, `allocated a` is a pointer to
heap address `a` stored in `m_allocated`, and `junk` is indeterminate
bytes (uninitialised, or the remains of a destroyed inline object).
`sh::detail::move_only_function_storage` (sh/function_ref.hpp lines
235-255) is textually identical and reuses this type. -/
inductive copyable_function_storage where
  | inplace (v : PayloadVal)
  | allocated (addr : Nat)
  | junk
deriving DecidableEq, Repr

/-- capacity = sizeof(void*) * 2 (sh/copyable_function.hpp line 67). -/
def copyable_function_storage.capacity : Nat := ptr_size * 2

/-- store_inplace (sh/copyable_function.hpp lines 77-81): a callable is
stored in place iff it fits in the buffer and is nothrow move
constructible. -/
def copyable_function_storage.store_inplace (ty : CallableType) : Bool :=
  ty.size ≤ copyable_function_storage.capacity && ty.is_nothrow_move_constructible

/-- Model of reinterpret_cast of the union's `m_inplace` bytes as a
callable: a live inline object reads back as itself; pointer bytes or
indeterminate bytes yield no valid object. -/
def copyable_function_storage.as_inplace : copyable_function_storage → PayloadVal
  | .inplace v => v
  | _ => .garbage

/-- m_call of copyable_function_vtable (sh/copyable_function.hpp lines
116-127 for the empty table, 141-151 for a callable table).  `ne` is the
NoExcept template argument. -/
def copyable_function_vtable.m_call (ne : Bool) (vt : vtable)
    (st : copyable_function_storage) (w : World) : CallResult :=
  match vt with
  | .null => if ne then .terminated else .bad_call
  | .callable ty =>
    if copyable_function_storage.store_inplace ty then
      st.as_inplace.invoke
    else
      match st with
      | .allocated a =>
        match heapLookup a w.heap with
        | some v => v.invoke
        | none => .ub
      | _ => .ub

/-- m_dtor of copyable_function_vtable (lines 128-129 empty, 152-162
callable): destroy the inline object, or delete the heap object.  The
union's bytes after an inline destruction are indeterminate; after a
heap delete the stale pointer bytes remain. -/
def copyable_function_vtable.m_dtor (vt : vtable)
    (st : copyable_function_storage) (w : World) :
    copyable_function_storage × World :=
  match vt with
  | .null => (st, w)
  | .callable ty =>
    if copyable_function_storage.store_inplace ty then
      (.junk, { w with released := w.released ++ st.as_inplace.releases })
    else
      match st with
      | .allocated a => (st, heapFree a w)
      | _ => (st, w)

/-- m_copy of copyable_function_vtable (lines 130-131 empty, 163-173
callable).  The heap branch of the source reads
`reinterpret_cast<const Callable&>(src_storage.m_inplace)` (line 171):
it reinterprets the union's own bytes as the callable instead of
following `src_storage.m_allocated`, so for a heap-stored source the
newly allocated object is constructed from pointer bytes, i.e. garbage.
This is modelled exactly as written. -/
def copyable_function_vtable.m_copy (vt : vtable)
    (dst src : copyable_function_storage) (w : World) :
    copyable_function_storage × World :=
  match vt with
  | .null => (dst, w)
  | .callable ty =>
    if copyable_function_storage.store_inplace ty then
      let p := src.as_inplace.copied w
      (.inplace p.1, p.2)
    else
      let p := src.as_inplace.copied w
      (.allocated p.2.nextAddr,
        { p.2 with nextAddr := p.2.nextAddr + 1,
                   heap := (p.2.nextAddr, p.1) :: p.2.heap })

/-- m_move of copyable_function_vtable (lines 132-133 empty, 174-186
callable): inline payloads are move-constructed into the destination and
the source object destroyed (its husk releases nothing); heap payloads
transfer only the pointer (`dst.m_allocated = src.m_allocated`), leaving
the source bytes unchanged.  Returns (destination, source) afterwards. -/
def copyable_function_vtable.m_move (vt : vtable)
    (dst src : copyable_function_storage) :
    copyable_function_storage × copyable_function_storage :=
  match vt with
  | .null => (dst, src)
  | .callable ty =>
    if copyable_function_storage.store_inplace ty then
      (.inplace src.as_inplace.moved, .junk)
    else
      match src with
      | .allocated a => (.allocated a, src)
      | _ => (.junk, src)

/-- m_move invoked with destination and source the same storage object
(as happens in an unguarded self-swap).  Inline: a new object is
placement-constructed over the slot and then the slot is destroyed, so
no live object remains.  Heap: `m_allocated` is self-assigned, a no-op.
Empty table: no-op. -/
def copyable_function_vtable.m_move_aliased (vt : vtable)
    (st : copyable_function_storage) : copyable_function_storage :=
  match vt with
  | .null => st
  | .callable ty =>
    if copyable_function_storage.store_inplace ty then .junk
    else st

/-- State of a `sh::detail::copyable_function<NoExcept, R, Args...>`
object (sh/copyable_function.hpp lines 201-399): a table pointer
(`none` models a null pointer, which is never stored) and the storage
union. -/
structure copyable_function where
  m_vtable : Option vtable
  m_storage : copyable_function_storage
deriving DecidableEq, Repr

/-- Steps of the construct / assign-from-callable statement sequences
shared by all four owning containers.  Each container's operation is
defined as the fold of its statement list, so the lists are the code. -/
inductive ctor_step where
  | destroy_old
  | update_table
  | construct_payload
deriving DecidableEq, Repr

/-- Position of a step in a statement list (length of the list if
absent). -/
def stepIndex (s : ctor_step) : List ctor_step → Nat
  | [] => 0
  | t :: rest => if t = s then 0 else stepIndex s rest + 1

/-- Execute one statement of copyable_function's construct/assign
sequences: destroy the current payload through the current table, set
the table pointer to the new callable's table, or construct the new
payload into storage (placement construction in place, otherwise
`m_storage.m_allocated = new callable_type{...}`). -/
def copyable_function.exec_step (ty : CallableType) (v : PayloadVal)
    (s : copyable_function × World) (stp : ctor_step) :
    copyable_function × World :=
  match stp with
  | .destroy_old =>
    let p := copyable_function_vtable.m_dtor (deref_vtable s.1.m_vtable) s.1.m_storage s.2
    ({ s.1 with m_storage := p.1 }, p.2)
  | .update_table =>
    ({ s.1 with m_vtable := some (.callable ty) }, s.2)
  | .construct_payload =>
    if copyable_function_storage.store_inplace ty then
      ({ s.1 with m_storage := .inplace v }, s.2)
    else
      ({ s.1 with m_storage := .allocated s.2.nextAddr },
        { s.2 with nextAddr := s.2.nextAddr + 1,
                   heap := (s.2.nextAddr, v) :: s.2.heap })

/-- Statement order of the constructor from a callable
(sh/copyable_function.hpp lines 240-253): set `m_vtable`, then construct
the payload. -/
def copyable_function.ctor_order : List ctor_step :=
  [.update_table, .construct_payload]

/-- Statement order of operator=(Callable&&) (lines 290-305): destroy the
old payload through the current table, set `m_vtable`, then construct
the new payload. -/
def copyable_function.assign_callable_order : List ctor_step :=
  [.destroy_old, .update_table, .construct_payload]

/-- Default constructor (lines 210-212): table pointer set to the empty
table, storage left indeterminate. -/
def copyable_function.ctor_default : copyable_function :=
  ⟨some .null, .junk⟩

/-- Null constructor (lines 216-218). -/
def copyable_function.ctor_nullptr : copyable_function :=
  ⟨some .null, .junk⟩

/-- Constructor from a callable (lines 240-253), as the fold of its
statement list.  `v` is the payload object produced by forwarding the
argument into the new storage.  At entry both members are
uninitialised. -/
def copyable_function.ctor_callable (ty : CallableType) (v : PayloadVal)
    (w : World) : copyable_function × World :=
  copyable_function.ctor_order.foldl (copyable_function.exec_step ty v)
    (⟨none, .junk⟩, w)

/-- Copy constructor (lines 221-225): copy the source's table pointer,
then copy the payload through it into this storage. -/
def copyable_function.ctor_copy (other : copyable_function) (w : World) :
    copyable_function × World :=
  let p := copyable_function_vtable.m_copy (deref_vtable other.m_vtable)
    .junk other.m_storage w
  (⟨other.m_vtable, p.1⟩, p.2)

/-- Move constructor (lines 229-233): exchange the source's table pointer
with the empty table, then move the payload through the taken table.
Returns (constructed object, source afterwards). -/
def copyable_function.ctor_move (other : copyable_function) :
    copyable_function × copyable_function :=
  let vt := other.m_vtable
  let p := copyable_function_vtable.m_move (deref_vtable vt) .junk other.m_storage
  (⟨vt, p.1⟩, ⟨some .null, p.2⟩)

/-- Copy assignment (lines 265-270): destroy this payload through this
table, then invoke this table's copy on the source storage.  The code
never assigns `m_vtable = other.m_vtable`; the table pointer is left
unchanged.  This is modelled exactly as written. -/
def copyable_function.assign_copy (self other : copyable_function)
    (w : World) : copyable_function × World :=
  let p1 := copyable_function_vtable.m_dtor (deref_vtable self.m_vtable)
    self.m_storage w
  let p2 := copyable_function_vtable.m_copy (deref_vtable self.m_vtable)
    p1.1 other.m_storage p1.2
  (⟨self.m_vtable, p2.1⟩, p2.2)

/-- Move assignment (lines 275-282): destroy this payload, take the
source's table pointer (source set to the empty table), move the payload
through the taken table.  Returns (this, source) afterwards. -/
def copyable_function.assign_move (self other : copyable_function)
    (w : World) : (copyable_function × copyable_function) × World :=
  let p1 := copyable_function_vtable.m_dtor (deref_vtable self.m_vtable)
    self.m_storage w
  let vt := other.m_vtable
  let p2 := copyable_function_vtable.m_move (deref_vtable vt) p1.1 other.m_storage
  ((⟨vt, p2.1⟩, ⟨some .null, p2.2⟩), p1.2)

/-- operator=(Callable&&) (lines 290-305), as the fold of its statement
list. -/
def copyable_function.assign_callable (ty : CallableType) (v : PayloadVal)
    (self : copyable_function) (w : World) : copyable_function × World :=
  copyable_function.assign_callable_order.foldl
    (copyable_function.exec_step ty v) (self, w)

/-- Null assignment (lines 309-314): destroy the payload through the
current table, then point at the empty table. -/
def copyable_function.assign_nullptr (self : copyable_function)
    (w : World) : copyable_function × World :=
  let p := copyable_function_vtable.m_dtor (deref_vtable self.m_vtable)
    self.m_storage w
  (⟨some .null, p.1⟩, p.2)

/-- Destructor (lines 256-259): destroy the payload through the current
table. -/
def copyable_function.destroy (self : copyable_function) (w : World) : World :=
  (copyable_function_vtable.m_dtor (deref_vtable self.m_vtable)
    self.m_storage w).2

/-- operator== against nullptr (lines 337-340): true iff the table
pointer is the empty table. -/
def copyable_function.eq_nullptr (self : copyable_function) : Bool :=
  decide (self.m_vtable = some .null)

/-- operator() (lines 321-326): dispatch m_call through the table. -/
def copyable_function.call (ne : Bool) (self : copyable_function)
    (w : World) : CallResult :=
  copyable_function_vtable.m_call ne (deref_vtable self.m_vtable)
    self.m_storage w

/-- swap (lines 352-359): three type-erased moves through a transient
storage location, then exchange the table pointers.  There is no guard
against self-swap; `copyable_function.swap_self` models that aliased
execution separately. -/
def copyable_function.swap (a b : copyable_function) :
    copyable_function × copyable_function :=
  let p1 := copyable_function_vtable.m_move (deref_vtable a.m_vtable)
    .junk a.m_storage
  let p2 := copyable_function_vtable.m_move (deref_vtable b.m_vtable)
    p1.2 b.m_storage
  let p3 := copyable_function_vtable.m_move (deref_vtable a.m_vtable)
    p2.2 p1.1
  (⟨b.m_vtable, p2.1⟩, ⟨a.m_vtable, p3.1⟩)

/-- swap invoked with `other == *this` (a.swap(a)): the same statements
executed with both operands aliased.  The second move has destination
and source the same storage; the final `std::swap` of the table pointer
with itself leaves it unchanged. -/
def copyable_function.swap_self (a : copyable_function) : copyable_function :=
  let p1 := copyable_function_vtable.m_move (deref_vtable a.m_vtable)
    .junk a.m_storage
  let st2 := copyable_function_vtable.m_move_aliased (deref_vtable a.m_vtable) p1.2
  let p3 := copyable_function_vtable.m_move (deref_vtable a.m_vtable)
    st2 p1.1
  ⟨a.m_vtable, p3.1⟩

/-- The live payload a storage holds when operated on through table `vt`:
the inline object, or the heap object behind the stored pointer. -/
def copyable_function.view_live (vt : vtable)
    (st : copyable_function_storage) (w : World) : Option PayloadVal :=
  match vt with
  | .null => none
  | .callable ty =>
    if copyable_function_storage.store_inplace ty then
      match st with
      | .inplace v => some v
      | _ => none
    else
      match st with
      | .allocated a => heapLookup a w.heap
      | _ => none

/-- The live payload a container holds. -/
def copyable_function.live_payload (c : copyable_function) (w : World) :
    Option PayloadVal :=
  copyable_function.view_live (deref_vtable c.m_vtable) c.m_storage w

/-- Observable behaviour and owned resource of a storage viewed through a
table: what a caller can distinguish (call result identity and resource
accounting), deliberately ignoring the internal move count. -/
def copyable_function.view_obs (vt : vtable)
    (st : copyable_function_storage) (w : World) : Option (Nat × Nat) :=
  match copyable_function.view_live vt st w with
  | some (.obj b r _) => some (b, r)
  | _ => none

/-- Observable behaviour and owned resource of a container. -/
def copyable_function.obs (c : copyable_function) (w : World) :
    Option (Nat × Nat) :=
  copyable_function.view_obs (deref_vtable c.m_vtable) c.m_storage w

/-- The resource a container currently owns, if any. -/
def copyable_function.held_resource (c : copyable_function) (w : World) :
    Option Nat :=
  (copyable_function.obs c w).map (fun p => p.2)

/-- Repeated move construction: move the container through `n`
intermediate variables, following the chain of destinations. -/
def copyable_function.move_chain : Nat → copyable_function → copyable_function
  | 0, c => c
  | n + 1, c => copyable_function.move_chain n (copyable_function.ctor_move c).1

/-- m_call of move_only_function_vtable (sh/function_ref.hpp lines
282-293 for the empty table, 305-315 for a callable table); the code is
identical to copyable_function_vtable's. -/
def move_only_function_vtable.m_call (ne : Bool) (vt : vtable)
    (st : copyable_function_storage) (w : World) : CallResult :=
  match vt with
  | .null => if ne then .terminated else .bad_call
  | .callable ty =>
    if copyable_function_storage.store_inplace ty then
      st.as_inplace.invoke
    else
      match st with
      | .allocated a =>
        match heapLookup a w.heap with
        | some v => v.invoke
        | none => .ub
      | _ => .ub

/-- m_dtor of move_only_function_vtable (lines 294-295 empty, 316-326
callable). -/
def move_only_function_vtable.m_dtor (vt : vtable)
    (st : copyable_function_storage) (w : World) :
    copyable_function_storage × World :=
  match vt with
  | .null => (st, w)
  | .callable ty =>
    if copyable_function_storage.store_inplace ty then
      (.junk, { w with released := w.released ++ st.as_inplace.releases })
    else
      match st with
      | .allocated a => (st, heapFree a w)
      | _ => (st, w)

/-- m_move of move_only_function_vtable (lines 296-297 empty, 327-339
callable): inline payloads are move-constructed and the source object
destroyed; heap payloads transfer only the pointer. -/
def move_only_function_vtable.m_move (vt : vtable)
    (dst src : copyable_function_storage) :
    copyable_function_storage × copyable_function_storage :=
  match vt with
  | .null => (dst, src)
  | .callable ty =>
    if copyable_function_storage.store_inplace ty then
      (.inplace src.as_inplace.moved, .junk)
    else
      match src with
      | .allocated a => (.allocated a, src)
      | _ => (.junk, src)

/-- m_move of move_only_function_vtable with destination and source the
same storage object (unguarded self-swap). -/
def move_only_function_vtable.m_move_aliased (vt : vtable)
    (st : copyable_function_storage) : copyable_function_storage :=
  match vt with
  | .null => st
  | .callable ty =>
    if copyable_function_storage.store_inplace ty then .junk
    else st

/-- State of a `sh::detail::move_only_function<NoExcept, R, Args...>`
object (sh/function_ref.hpp lines 354-538).  Its storage union is
textually identical to copyable_function's and reuses that type. -/
structure move_only_function where
  m_vtable : Option vtable
  m_storage : copyable_function_storage
deriving DecidableEq, Repr

/-- Execute one statement of move_only_function's construct/assign
sequences (destroy old / set table / construct new). -/
def move_only_function.exec_step (ty : CallableType) (v : PayloadVal)
    (s : move_only_function × World) (stp : ctor_step) :
    move_only_function × World :=
  match stp with
  | .destroy_old =>
    let p := move_only_function_vtable.m_dtor (deref_vtable s.1.m_vtable) s.1.m_storage s.2
    ({ s.1 with m_storage := p.1 }, p.2)
  | .update_table =>
    ({ s.1 with m_vtable := some (.callable ty) }, s.2)
  | .construct_payload =>
    if copyable_function_storage.store_inplace ty then
      ({ s.1 with m_storage := .inplace v }, s.2)
    else
      ({ s.1 with m_storage := .allocated s.2.nextAddr },
        { s.2 with nextAddr := s.2.nextAddr + 1,
                   heap := (s.2.nextAddr, v) :: s.2.heap })

/-- Statement order of the constructor from a callable
(sh/function_ref.hpp lines 389-402): set `m_vtable`, then construct. -/
def move_only_function.ctor_order : List ctor_step :=
  [.update_table, .construct_payload]

/-- Statement order of operator=(Callable&&) (lines 429-444). -/
def move_only_function.assign_callable_order : List ctor_step :=
  [.destroy_old, .update_table, .construct_payload]

/-- Default constructor (lines 366-368). -/
def move_only_function.ctor_default : move_only_function :=
  ⟨some .null, .junk⟩

/-- Null constructor (lines 372-374). -/
def move_only_function.ctor_nullptr : move_only_function :=
  ⟨some .null, .junk⟩

/-- Constructor from a callable (lines 389-402). -/
def move_only_function.ctor_callable (ty : CallableType) (v : PayloadVal)
    (w : World) : move_only_function × World :=
  move_only_function.ctor_order.foldl (move_only_function.exec_step ty v)
    (⟨none, .junk⟩, w)

/-- Move constructor (lines 378-382). -/
def move_only_function.ctor_move (other : move_only_function) :
    move_only_function × move_only_function :=
  let vt := other.m_vtable
  let p := move_only_function_vtable.m_move (deref_vtable vt) .junk other.m_storage
  (⟨vt, p.1⟩, ⟨some .null, p.2⟩)

/-- Move assignment (lines 414-421). -/
def move_only_function.assign_move (self other : move_only_function)
    (w : World) : (move_only_function × move_only_function) × World :=
  let p1 := move_only_function_vtable.m_dtor (deref_vtable self.m_vtable)
    self.m_storage w
  let vt := other.m_vtable
  let p2 := move_only_function_vtable.m_move (deref_vtable vt) p1.1 other.m_storage
  ((⟨vt, p2.1⟩, ⟨some .null, p2.2⟩), p1.2)

/-- operator=(Callable&&) (lines 429-444). -/
def move_only_function.assign_callable (ty : CallableType) (v : PayloadVal)
    (self : move_only_function) (w : World) : move_only_function × World :=
  move_only_function.assign_callable_order.foldl
    (move_only_function.exec_step ty v) (self, w)

/-- Null assignment (lines 448-453). -/
def move_only_function.assign_nullptr (self : move_only_function)
    (w : World) : move_only_function × World :=
  let p := move_only_function_vtable.m_dtor (deref_vtable self.m_vtable)
    self.m_storage w
  (⟨some .null, p.1⟩, p.2)

/-- Destructor (lines 405-408). -/
def move_only_function.destroy (self : move_only_function) (w : World) : World :=
  (move_only_function_vtable.m_dtor (deref_vtable self.m_vtable)
    self.m_storage w).2

/-- operator== against nullptr (lines 476-479). -/
def move_only_function.eq_nullptr (self : move_only_function) : Bool :=
  decide (self.m_vtable = some .null)

/-- operator() (lines 461-465). -/
def move_only_function.call (ne : Bool) (self : move_only_function)
    (w : World) : CallResult :=
  move_only_function_vtable.m_call ne (deref_vtable self.m_vtable)
    self.m_storage w

/-- swap (lines 491-498): three type-erased moves through a transient
storage plus a table-pointer exchange; no self-swap guard. -/
def move_only_function.swap (a b : move_only_function) :
    move_only_function × move_only_function :=
  let p1 := move_only_function_vtable.m_move (deref_vtable a.m_vtable)
    .junk a.m_storage
  let p2 := move_only_function_vtable.m_move (deref_vtable b.m_vtable)
    p1.2 b.m_storage
  let p3 := move_only_function_vtable.m_move (deref_vtable a.m_vtable)
    p2.2 p1.1
  (⟨b.m_vtable, p2.1⟩, ⟨a.m_vtable, p3.1⟩)

/-- swap invoked with `other == *this`. -/
def move_only_function.swap_self (a : move_only_function) : move_only_function :=
  let p1 := move_only_function_vtable.m_move (deref_vtable a.m_vtable)
    .junk a.m_storage
  let st2 := move_only_function_vtable.m_move_aliased (deref_vtable a.m_vtable) p1.2
  let p3 := move_only_function_vtable.m_move (deref_vtable a.m_vtable)
    st2 p1.1
  ⟨a.m_vtable, p3.1⟩

/-- The live payload a move_only_function holds. -/
def move_only_function.live_payload (c : move_only_function) (w : World) :
    Option PayloadVal :=
  copyable_function.view_live (deref_vtable c.m_vtable) c.m_storage w

/-- Observable behaviour and owned resource of a move_only_function. -/
def move_only_function.obs (c : move_only_function) (w : World) :
    Option (Nat × Nat) :=
  copyable_function.view_obs (deref_vtable c.m_vtable) c.m_storage w

/-- The resource a move_only_function currently owns, if any. -/
def move_only_function.held_resource (c : move_only_function) (w : World) :
    Option Nat :=
  (move_only_function.obs c w).map (fun p => p.2)

/-- Repeated move construction through `n` intermediate variables. -/
def move_only_function.move_chain : Nat → move_only_function → move_only_function
  | 0, c => c
  | n + 1, c => move_only_function.move_chain n (move_only_function.ctor_move c).1

/-- Internal storage of the fixed-capacity containers
(`storage_type` nested in inplace_copyable_function, part: lines 323-326,
and in inplace_move_only_function, sh/inplace_move_only_function.hpp
lines 289-292): an aligned byte buffer of `Capacity` bytes that either
holds a live object or indeterminate bytes.  The compile-time
`Capacity`/`Alignment` parameters and the `sizeof(callable) <= Capacity`
static assertion are binding-time checks and do not appear in the
runtime state. -/
inductive inplace_storage where
  | obj (v : PayloadVal)
  | junk
deriving DecidableEq, Repr

/-- Model of casting the buffer's address to a callable pointer and
dereferencing it: a live object reads back as itself, indeterminate
bytes yield no valid object. -/
def inplace_storage.as_payload : inplace_storage → PayloadVal
  | .obj v => v
  | .junk => .garbage

/-- m_call of inplace_copyable_function_vtable (inplace_copyable_function
header lines 92-103 empty, 117-120 callable). -/
def inplace_copyable_function_vtable.m_call (ne : Bool) (vt : vtable)
    (st : inplace_storage) : CallResult :=
  match vt with
  | .null => if ne then .terminated else .bad_call
  | .callable _ => st.as_payload.invoke

/-- m_dtor of inplace_copyable_function_vtable (lines 104-105 empty,
121-124 callable). -/
def inplace_copyable_function_vtable.m_dtor (vt : vtable)
    (st : inplace_storage) (w : World) : inplace_storage × World :=
  match vt with
  | .null => (st, w)
  | .callable _ =>
    (.junk, { w with released := w.released ++ st.as_payload.releases })

/-- m_copy of inplace_copyable_function_vtable (lines 106-107 empty,
125-128 callable): placement-construct a copy of the source object into
the destination buffer. -/
def inplace_copyable_function_vtable.m_copy (vt : vtable)
    (dst src : inplace_storage) (w : World) : inplace_storage × World :=
  match vt with
  | .null => (dst, w)
  | .callable _ =>
    let p := src.as_payload.copied w
    (.obj p.1, p.2)

/-- m_move of inplace_copyable_function_vtable (lines 108-109 empty,
129-134 callable): move-construct into the destination, destroy the
source object. -/
def inplace_copyable_function_vtable.m_move (vt : vtable)
    (dst src : inplace_storage) : inplace_storage × inplace_storage :=
  match vt with
  | .null => (dst, src)
  | .callable _ => (.obj src.as_payload.moved, .junk)

/-- m_move of inplace_copyable_function_vtable with destination and
source the same buffer (unguarded self-swap): a new object is
constructed over the slot and the slot then destroyed, so no live object
remains. -/
def inplace_copyable_function_vtable.m_move_aliased (vt : vtable)
    (st : inplace_storage) : inplace_storage :=
  match vt with
  | .null => st
  | .callable _ => .junk

/-- State of a `sh::inplace_copyable_function<Signature, Capacity,
Alignment>` object (inplace_copyable_function header lines 160-355). -/
structure inplace_copyable_function where
  m_vtable : Option vtable
  m_storage : inplace_storage
deriving DecidableEq, Repr

/-- Execute one statement of inplace_copyable_function's construct/assign
sequences. -/
def inplace_copyable_function.exec_step (ty : CallableType) (v : PayloadVal)
    (s : inplace_copyable_function × World) (stp : ctor_step) :
    inplace_copyable_function × World :=
  match stp with
  | .destroy_old =>
    let p := inplace_copyable_function_vtable.m_dtor (deref_vtable s.1.m_vtable)
      s.1.m_storage s.2
    ({ s.1 with m_storage := p.1 }, p.2)
  | .update_table =>
    ({ s.1 with m_vtable := some (.callable ty) }, s.2)
  | .construct_payload =>
    ({ s.1 with m_storage := .obj v }, s.2)

/-- Statement order of the constructor from a callable
(inplace_copyable_function header lines 201-208). -/
def inplace_copyable_function.ctor_order : List ctor_step :=
  [.update_table, .construct_payload]

/-- Statement order of operator=(Callable&&) (lines 254-263). -/
def inplace_copyable_function.assign_callable_order : List ctor_step :=
  [.destroy_old, .update_table, .construct_payload]

/-- Default constructor (lines 170-172). -/
def inplace_copyable_function.ctor_default : inplace_copyable_function :=
  ⟨some .null, .junk⟩

/-- Null constructor (lines 176-178). -/
def inplace_copyable_function.ctor_nullptr : inplace_copyable_function :=
  ⟨some .null, .junk⟩

/-- Constructor from a callable (lines 201-208). -/
def inplace_copyable_function.ctor_callable (ty : CallableType) (v : PayloadVal)
    (w : World) : inplace_copyable_function × World :=
  inplace_copyable_function.ctor_order.foldl
    (inplace_copyable_function.exec_step ty v) (⟨none, .junk⟩, w)

/-- Copy constructor (lines 182-186): copy the source's table pointer,
then copy the payload through it. -/
def inplace_copyable_function.ctor_copy (other : inplace_copyable_function)
    (w : World) : inplace_copyable_function × World :=
  let p := inplace_copyable_function_vtable.m_copy (deref_vtable other.m_vtable)
    .junk other.m_storage w
  (⟨other.m_vtable, p.1⟩, p.2)

/-- Move constructor (lines 190-194). -/
def inplace_copyable_function.ctor_move (other : inplace_copyable_function) :
    inplace_copyable_function × inplace_copyable_function :=
  let vt := other.m_vtable
  let p := inplace_copyable_function_vtable.m_move (deref_vtable vt)
    .junk other.m_storage
  (⟨vt, p.1⟩, ⟨some .null, p.2⟩)

/-- Copy assignment (lines 220-225): destroy this payload through this
table, then invoke this table's copy on the source storage.  As in
copyable_function, `m_vtable` is never assigned from the source; it is
left unchanged.  This is modelled exactly as written. -/
def inplace_copyable_function.assign_copy
    (self other : inplace_copyable_function) (w : World) :
    inplace_copyable_function × World :=
  let p1 := inplace_copyable_function_vtable.m_dtor (deref_vtable self.m_vtable)
    self.m_storage w
  let p2 := inplace_copyable_function_vtable.m_copy (deref_vtable self.m_vtable)
    p1.1 other.m_storage p1.2
  (⟨self.m_vtable, p2.1⟩, p2.2)

/-- Move assignment (lines 230-237). -/
def inplace_copyable_function.assign_move
    (self other : inplace_copyable_function) (w : World) :
    (inplace_copyable_function × inplace_copyable_function) × World :=
  let p1 := inplace_copyable_function_vtable.m_dtor (deref_vtable self.m_vtable)
    self.m_storage w
  let vt := other.m_vtable
  let p2 := inplace_copyable_function_vtable.m_move (deref_vtable vt)
    p1.1 other.m_storage
  ((⟨vt, p2.1⟩, ⟨some .null, p2.2⟩), p1.2)

/-- operator=(Callable&&) (lines 254-263). -/
def inplace_copyable_function.assign_callable (ty : CallableType)
    (v : PayloadVal) (self : inplace_copyable_function) (w : World) :
    inplace_copyable_function × World :=
  inplace_copyable_function.assign_callable_order.foldl
    (inplace_copyable_function.exec_step ty v) (self, w)

/-- Null assignment (lines 241-246). -/
def inplace_copyable_function.assign_nullptr
    (self : inplace_copyable_function) (w : World) :
    inplace_copyable_function × World :=
  let p := inplace_copyable_function_vtable.m_dtor (deref_vtable self.m_vtable)
    self.m_storage w
  (⟨some .null, p.1⟩, p.2)

/-- Destructor (lines 211-214). -/
def inplace_copyable_function.destroy (self : inplace_copyable_function)
    (w : World) : World :=
  (inplace_copyable_function_vtable.m_dtor (deref_vtable self.m_vtable)
    self.m_storage w).2

/-- operator== against nullptr (lines 286-289). -/
def inplace_copyable_function.eq_nullptr (self : inplace_copyable_function) : Bool :=
  decide (self.m_vtable = some .null)

/-- operator() (lines 270-275). -/
def inplace_copyable_function.call (ne : Bool)
    (self : inplace_copyable_function) : CallResult :=
  inplace_copyable_function_vtable.m_call ne (deref_vtable self.m_vtable)
    self.m_storage

/-- swap (lines 301-308): three type-erased moves through a transient
buffer plus a table-pointer exchange; no self-swap guard. -/
def inplace_copyable_function.swap (a b : inplace_copyable_function) :
    inplace_copyable_function × inplace_copyable_function :=
  let p1 := inplace_copyable_function_vtable.m_move (deref_vtable a.m_vtable)
    .junk a.m_storage
  let p2 := inplace_copyable_function_vtable.m_move (deref_vtable b.m_vtable)
    p1.2 b.m_storage
  let p3 := inplace_copyable_function_vtable.m_move (deref_vtable a.m_vtable)
    p2.2 p1.1
  (⟨b.m_vtable, p2.1⟩, ⟨a.m_vtable, p3.1⟩)

/-- swap invoked with `other == *this`. -/
def inplace_copyable_function.swap_self (a : inplace_copyable_function) :
    inplace_copyable_function :=
  let p1 := inplace_copyable_function_vtable.m_move (deref_vtable a.m_vtable)
    .junk a.m_storage
  let st2 := inplace_copyable_function_vtable.m_move_aliased
    (deref_vtable a.m_vtable) p1.2
  let p3 := inplace_copyable_function_vtable.m_move (deref_vtable a.m_vtable)
    st2 p1.1
  ⟨a.m_vtable, p3.1⟩

/-- The live payload seen through table `vt` in an inplace buffer. -/
def inplace_copyable_function.view_live (vt : vtable)
    (st : inplace_storage) : Option PayloadVal :=
  match vt with
  | .null => none
  | .callable _ =>
    match st with
    | .obj v => some v
    | .junk => none

/-- The live payload an inplace_copyable_function holds. -/
def inplace_copyable_function.live_payload (c : inplace_copyable_function) :
    Option PayloadVal :=
  inplace_copyable_function.view_live (deref_vtable c.m_vtable) c.m_storage

/-- Observable behaviour and owned resource seen through a table. -/
def inplace_copyable_function.view_obs (vt : vtable)
    (st : inplace_storage) : Option (Nat × Nat) :=
  match inplace_copyable_function.view_live vt st with
  | some (.obj b r _) => some (b, r)
  | _ => none

/-- Observable behaviour and owned resource of an
inplace_copyable_function. -/
def inplace_copyable_function.obs (c : inplace_copyable_function) :
    Option (Nat × Nat) :=
  inplace_copyable_function.view_obs (deref_vtable c.m_vtable) c.m_storage

/-- The resource an inplace_copyable_function currently owns, if any. -/
def inplace_copyable_function.held_resource (c : inplace_copyable_function) :
    Option Nat :=
  (inplace_copyable_function.obs c).map (fun p => p.2)

/-- Repeated move construction through `n` intermediate variables. -/
def inplace_copyable_function.move_chain :
    Nat → inplace_copyable_function → inplace_copyable_function
  | 0, c => c
  | n + 1, c =>
    inplace_copyable_function.move_chain n
      (inplace_copyable_function.ctor_move c).1

/-- m_call of inplace_move_only_function_vtable
(sh/inplace_move_only_function.hpp lines 88-99 empty, 111-114
callable). -/
def inplace_move_only_function_vtable.m_call (ne : Bool) (vt : vtable)
    (st : inplace_storage) : CallResult :=
  match vt with
  | .null => if ne then .terminated else .bad_call
  | .callable _ => st.as_payload.invoke

/-- m_dtor of inplace_move_only_function_vtable (lines 100-101 empty,
115-118 callable). -/
def inplace_move_only_function_vtable.m_dtor (vt : vtable)
    (st : inplace_storage) (w : World) : inplace_storage × World :=
  match vt with
  | .null => (st, w)
  | .callable _ =>
    (.junk, { w with released := w.released ++ st.as_payload.releases })

/-- m_move of inplace_move_only_function_vtable (lines 102-103 empty,
119-124 callable). -/
def inplace_move_only_function_vtable.m_move (vt : vtable)
    (dst src : inplace_storage) : inplace_storage × inplace_storage :=
  match vt with
  | .null => (dst, src)
  | .callable _ => (.obj src.as_payload.moved, .junk)

/-- m_move of inplace_move_only_function_vtable with destination and
source the same buffer. -/
def inplace_move_only_function_vtable.m_move_aliased (vt : vtable)
    (st : inplace_storage) : inplace_storage :=
  match vt with
  | .null => st
  | .callable _ => .junk

/-- State of a `sh::detail::inplace_move_only_function` object
(sh/inplace_move_only_function.hpp lines 141-313). -/
structure inplace_move_only_function where
  m_vtable : Option vtable
  m_storage : inplace_storage
deriving DecidableEq, Repr

/-- Execute one statement of inplace_move_only_function's
construct/assign sequences. -/
def inplace_move_only_function.exec_step (ty : CallableType) (v : PayloadVal)
    (s : inplace_move_only_function × World) (stp : ctor_step) :
    inplace_move_only_function × World :=
  match stp with
  | .destroy_old =>
    let p := inplace_move_only_function_vtable.m_dtor (deref_vtable s.1.m_vtable)
      s.1.m_storage s.2
    ({ s.1 with m_storage := p.1 }, p.2)
  | .update_table =>
    ({ s.1 with m_vtable := some (.callable ty) }, s.2)
  | .construct_payload =>
    ({ s.1 with m_storage := .obj v }, s.2)

/-- Statement order of the constructor from a callable (lines
177-184). -/
def inplace_move_only_function.ctor_order : List ctor_step :=
  [.update_table, .construct_payload]

/-- Statement order of operator=(Callable&&) (lines 220-229). -/
def inplace_move_only_function.assign_callable_order : List ctor_step :=
  [.destroy_old, .update_table, .construct_payload]

/-- Default constructor (lines 154-156). -/
def inplace_move_only_function.ctor_default : inplace_move_only_function :=
  ⟨some .null, .junk⟩

/-- Null constructor (lines 160-162). -/
def inplace_move_only_function.ctor_nullptr : inplace_move_only_function :=
  ⟨some .null, .junk⟩

/-- Constructor from a callable (lines 177-184). -/
def inplace_move_only_function.ctor_callable (ty : CallableType)
    (v : PayloadVal) (w : World) : inplace_move_only_function × World :=
  inplace_move_only_function.ctor_order.foldl
    (inplace_move_only_function.exec_step ty v) (⟨none, .junk⟩, w)

/-- Move constructor (lines 166-170). -/
def inplace_move_only_function.ctor_move
    (other : inplace_move_only_function) :
    inplace_move_only_function × inplace_move_only_function :=
  let vt := other.m_vtable
  let p := inplace_move_only_function_vtable.m_move (deref_vtable vt)
    .junk other.m_storage
  (⟨vt, p.1⟩, ⟨some .null, p.2⟩)

/-- Move assignment (lines 196-203). -/
def inplace_move_only_function.assign_move
    (self other : inplace_move_only_function) (w : World) :
    (inplace_move_only_function × inplace_move_only_function) × World :=
  let p1 := inplace_move_only_function_vtable.m_dtor (deref_vtable self.m_vtable)
    self.m_storage w
  let vt := other.m_vtable
  let p2 := inplace_move_only_function_vtable.m_move (deref_vtable vt)
    p1.1 other.m_storage
  ((⟨vt, p2.1⟩, ⟨some .null, p2.2⟩), p1.2)

/-- operator=(Callable&&) (lines 220-229). -/
def inplace_move_only_function.assign_callable (ty : CallableType)
    (v : PayloadVal) (self : inplace_move_only_function) (w : World) :
    inplace_move_only_function × World :=
  inplace_move_only_function.assign_callable_order.foldl
    (inplace_move_only_function.exec_step ty v) (self, w)

/-- Null assignment (lines 207-212). -/
def inplace_move_only_function.assign_nullptr
    (self : inplace_move_only_function) (w : World) :
    inplace_move_only_function × World :=
  let p := inplace_move_only_function_vtable.m_dtor (deref_vtable self.m_vtable)
    self.m_storage w
  (⟨some .null, p.1⟩, p.2)

/-- Destructor (lines 187-190). -/
def inplace_move_only_function.destroy (self : inplace_move_only_function)
    (w : World) : World :=
  (inplace_move_only_function_vtable.m_dtor (deref_vtable self.m_vtable)
    self.m_storage w).2

/-- operator== against nullptr (lines 252-255). -/
def inplace_move_only_function.eq_nullptr
    (self : inplace_move_only_function) : Bool :=
  decide (self.m_vtable = some .null)

/-- operator() (lines 236-241). -/
def inplace_move_only_function.call (ne : Bool)
    (self : inplace_move_only_function) : CallResult :=
  inplace_move_only_function_vtable.m_call ne (deref_vtable self.m_vtable)
    self.m_storage

/-- swap (lines 267-274): three type-erased moves through a transient
buffer plus a table-pointer exchange; no self-swap guard. -/
def inplace_move_only_function.swap (a b : inplace_move_only_function) :
    inplace_move_only_function × inplace_move_only_function :=
  let p1 := inplace_move_only_function_vtable.m_move (deref_vtable a.m_vtable)
    .junk a.m_storage
  let p2 := inplace_move_only_function_vtable.m_move (deref_vtable b.m_vtable)
    p1.2 b.m_storage
  let p3 := inplace_move_only_function_vtable.m_move (deref_vtable a.m_vtable)
    p2.2 p1.1
  (⟨b.m_vtable, p2.1⟩, ⟨a.m_vtable, p3.1⟩)

/-- swap invoked with `other == *this`. -/
def inplace_move_only_function.swap_self (a : inplace_move_only_function) :
    inplace_move_only_function :=
  let p1 := inplace_move_only_function_vtable.m_move (deref_vtable a.m_vtable)
    .junk a.m_storage
  let st2 := inplace_move_only_function_vtable.m_move_aliased
    (deref_vtable a.m_vtable) p1.2
  let p3 := inplace_move_only_function_vtable.m_move (deref_vtable a.m_vtable)
    st2 p1.1
  ⟨a.m_vtable, p3.1⟩

/-- The live payload an inplace_move_only_function holds. -/
def inplace_move_only_function.live_payload
    (c : inplace_move_only_function) : Option PayloadVal :=
  inplace_copyable_function.view_live (deref_vtable c.m_vtable) c.m_storage

/-- Observable behaviour and owned resource of an
inplace_move_only_function. -/
def inplace_move_only_function.obs (c : inplace_move_only_function) :
    Option (Nat × Nat) :=
  inplace_copyable_function.view_obs (deref_vtable c.m_vtable) c.m_storage

/-- The resource an inplace_move_only_function currently owns, if any. -/
def inplace_move_only_function.held_resource
    (c : inplace_move_only_function) : Option Nat :=
  (inplace_move_only_function.obs c).map (fun p => p.2)

/-- Repeated move construction through `n` intermediate variables. -/
def inplace_move_only_function.move_chain :
    Nat → inplace_move_only_function → inplace_move_only_function
  | 0, c => c
  | n + 1, c =>
    inplace_move_only_function.move_chain n
      (inplace_move_only_function.ctor_move c).1

/-- A callable value being bound to one of the non-owning wrappers:
either a function pointer with a given value, or a general callable
object living at a given address. -/
inductive CallableArg where
  | pointer_value (v : Nat)
  | object_ref (address : Nat)
deriving DecidableEq, Repr

/-- The value of a non-owning wrapper's erased `m_target` member:
a null pointer, the value of a function pointer stored directly, or the
address of a callable object. -/
inductive fp_target where
  | null
  | value (v : Nat)
  | addr (a : Nat)
deriving DecidableEq, Repr

/-- Which trampoline specialization `m_invoke_target` points at:
`function_ptr_invoke_target`/`function_ref_invoke_target` instantiated
for the pointer type itself, or for a pointer to the callable object's
type. -/
inductive trampoline_kind where
  | for_pointer_type
  | for_object_type
deriving DecidableEq, Repr

/-- Compile-time traits of the bound argument over which the converting
constructors' enable_if conditions are evaluated. -/
structure ArgTraits where
  is_invocable : Bool
  is_same_type : Bool
  is_pointer : Bool
  is_member_function_pointer : Bool
  is_member_object_pointer : Bool
deriving DecidableEq, Repr

/-- State of a `sh::detail::function_ptr` object (function_ptr header
lines 76-234): the erased target pointer and the trampoline pointer
(`none` models the indeterminate value left by the default and null
constructors, which set only `m_target`). -/
structure function_ptr where
  m_target : fp_target
  m_invoke_target : Option trampoline_kind
deriving DecidableEq, Repr

/-- enable_if condition of function_ptr's converting constructor and
assignment (function_ptr header lines 104-111 and 128-135): invocable,
not function_ptr itself, not a member pointer.  Pointers are accepted. -/
def function_ptr.ctor_enabled (t : ArgTraits) : Bool :=
  t.is_invocable && !t.is_same_type
    && !t.is_member_function_pointer && !t.is_member_object_pointer

/-- assign (function_ptr header lines 209-224): when the argument is a
pointer, store its own value as the target (the pointer is not
addressed); otherwise store the address of the referenced callable
object.  `param_slot` is the address of the local reference parameter
holding the argument; the stored target never refers to it. -/
def function_ptr.assign (self : function_ptr) (arg : CallableArg)
    (param_slot : Nat) : function_ptr :=
  match arg with
  | .pointer_value v =>
    { self with m_target := .value v,
                m_invoke_target := some .for_pointer_type }
  | .object_ref a =>
    { self with m_target := .addr a,
                m_invoke_target := some .for_object_type }

/-- Default constructor (lines 85-87): target null, trampoline
indeterminate. -/
def function_ptr.ctor_default : function_ptr :=
  ⟨.null, none⟩

/-- Null constructor (lines 91-93). -/
def function_ptr.ctor_nullptr : function_ptr :=
  ⟨.null, none⟩

/-- Constructor from a callable (lines 112-115): delegates to assign. -/
def function_ptr.ctor_callable (arg : CallableArg) (param_slot : Nat) :
    function_ptr :=
  function_ptr.assign ⟨.null, none⟩ arg param_slot

/-- Defaulted move constructor (lines 97-99): member-wise copy of the
raw pointers; the source is left unchanged.  Returns (constructed
object, source afterwards). -/
def function_ptr.ctor_move (other : function_ptr) :
    function_ptr × function_ptr :=
  (other, other)

/-- Defaulted move assignment (lines 120-122): member-wise copy; the
source is left unchanged. -/
def function_ptr.assign_move (self other : function_ptr) :
    function_ptr × function_ptr :=
  (other, other)

/-- Null assignment (lines 144-148): only `m_target` is cleared. -/
def function_ptr.assign_nullptr (self : function_ptr) : function_ptr :=
  { self with m_target := .null }

/-- operator== against nullptr (lines 171-174). -/
def function_ptr.eq_nullptr (self : function_ptr) : Bool :=
  decide (self.m_target = .null)

/-- State of a `sh::detail::function_ref` object (sh/function_ref.hpp
lines 76-136): the trampoline pointer and the erased target. -/
structure function_ref where
  m_invoke_target : trampoline_kind
  m_target : fp_target
deriving DecidableEq, Repr

/-- enable_if condition of function_ref's converting constructor
(sh/function_ref.hpp lines 95-103): invocable, not function_ref itself,
NOT a pointer, not a member pointer.  A function pointer value is
rejected at compile time. -/
def function_ref.ctor_enabled (t : ArgTraits) : Bool :=
  t.is_invocable && !t.is_same_type && !t.is_pointer
    && !t.is_member_function_pointer && !t.is_member_object_pointer

/-- Constructor from a (non-pointer) callable (lines 104-109): store the
trampoline for the object's type and the address of the referenced
callable object. -/
def function_ref.ctor_callable (address : Nat) : function_ref :=
  ⟨.for_object_type, .addr address⟩

/-- Traits of a function-pointer argument (invocable, a pointer, nothing
else). -/
def function_pointer_traits : ArgTraits :=
  ⟨true, false, true, false, false⟩

/-- Helper: moving a payload through copyable_function's type-erased move
preserves the observable (behaviour, resource) seen through the same
table, whatever the destination previously held. -/
theorem cf_move_view (vt : vtable) (dst src : copyable_function_storage)
    (w : World) :
    copyable_function.view_obs vt
      (copyable_function_vtable.m_move vt dst src).1 w
      = copyable_function.view_obs vt src w := by
  cases vt with
  | null => rfl
  | callable ty =>
    by_cases h : copyable_function_storage.store_inplace ty
    · cases src with
      | inplace v =>
        cases v <;>
          simp [copyable_function_vtable.m_move, copyable_function.view_obs,
            copyable_function.view_live, copyable_function_storage.as_inplace,
            PayloadVal.moved, h]
      | allocated a =>
        simp [copyable_function_vtable.m_move, copyable_function.view_obs,
          copyable_function.view_live, copyable_function_storage.as_inplace,
          PayloadVal.moved, h]
      | junk =>
        simp [copyable_function_vtable.m_move, copyable_function.view_obs,
          copyable_function.view_live, copyable_function_storage.as_inplace,
          PayloadVal.moved, h]
    · cases src with
      | inplace v =>
        simp [copyable_function_vtable.m_move, copyable_function.view_obs,
          copyable_function.view_live, h]
      | allocated a =>
        simp [copyable_function_vtable.m_move, copyable_function.view_obs,
          copyable_function.view_live, h]
      | junk =>
        simp [copyable_function_vtable.m_move, copyable_function.view_obs,
          copyable_function.view_live, h]

/-- Helper: the same preservation fact for move_only_function's move. -/
theorem mof_move_view (vt : vtable) (dst src : copyable_function_storage)
    (w : World) :
    copyable_function.view_obs vt
      (move_only_function_vtable.m_move vt dst src).1 w
      = copyable_function.view_obs vt src w := by
  cases vt with
  | null => rfl
  | callable ty =>
    by_cases h : copyable_function_storage.store_inplace ty
    · cases src with
      | inplace v =>
        cases v <;>
          simp [move_only_function_vtable.m_move, copyable_function.view_obs,
            copyable_function.view_live, copyable_function_storage.as_inplace,
            PayloadVal.moved, h]
      | allocated a =>
        simp [move_only_function_vtable.m_move, copyable_function.view_obs,
          copyable_function.view_live, copyable_function_storage.as_inplace,
          PayloadVal.moved, h]
      | junk =>
        simp [move_only_function_vtable.m_move, copyable_function.view_obs,
          copyable_function.view_live, copyable_function_storage.as_inplace,
          PayloadVal.moved, h]
    · cases src with
      | inplace v =>
        simp [move_only_function_vtable.m_move, copyable_function.view_obs,
          copyable_function.view_live, h]
      | allocated a =>
        simp [move_only_function_vtable.m_move, copyable_function.view_obs,
          copyable_function.view_live, h]
      | junk =>
        simp [move_only_function_vtable.m_move, copyable_function.view_obs,
          copyable_function.view_live, h]

/-- Helper: the same preservation fact for inplace_copyable_function's
move. -/
theorem icf_move_view (vt : vtable) (dst src : inplace_storage) :
    inplace_copyable_function.view_obs vt
      (inplace_copyable_function_vtable.m_move vt dst src).1
      = inplace_copyable_function.view_obs vt src := by
  cases vt with
  | null => rfl
  | callable ty =>
    cases src with
    | obj v =>
      cases v <;>
        simp [inplace_copyable_function_vtable.m_move,
          inplace_copyable_function.view_obs,
          inplace_copyable_function.view_live,
          inplace_storage.as_payload, PayloadVal.moved]
    | junk =>
      simp [inplace_copyable_function_vtable.m_move,
        inplace_copyable_function.view_obs,
        inplace_copyable_function.view_live,
        inplace_storage.as_payload, PayloadVal.moved]

/-- Helper: the same preservation fact for inplace_move_only_function's
move. -/
theorem imof_move_view (vt : vtable) (dst src : inplace_storage) :
    inplace_copyable_function.view_obs vt
      (inplace_move_only_function_vtable.m_move vt dst src).1
      = inplace_copyable_function.view_obs vt src := by
  cases vt with
  | null => rfl
  | callable ty =>
    cases src with
    | obj v =>
      cases v <;>
        simp [inplace_move_only_function_vtable.m_move,
          inplace_copyable_function.view_obs,
          inplace_copyable_function.view_live,
          inplace_storage.as_payload, PayloadVal.moved]
    | junk =>
      simp [inplace_move_only_function_vtable.m_move,
        inplace_copyable_function.view_obs,
        inplace_copyable_function.view_live,
        inplace_storage.as_payload, PayloadVal.moved]

/-- Claim C1 (code bug).  Copy assignment does not copy the source's
table pointer: `operator=(const copyable_function&)` destroys its own
payload and then dispatches `m_copy` through its own (old) table, never
assigning `m_vtable = other.m_vtable`.  Assigning a non-null source into
a default-constructed (empty) destination leaves the destination's table
the empty table, testing null and holding no copy, while the claim
requires the destination's table pointer to equal the source's and the
destination to be callable like the source.  The same applies to
inplace_copyable_function's copy assignment. -/
theorem copy_assign_ignores_source_table :
    (copyable_function.assign_copy copyable_function.ctor_default
        ⟨some (.callable ⟨8, true⟩), .inplace (.obj 7 5 0)⟩
        ⟨0, [], 10, []⟩).1.m_vtable = some .null
    ∧ copyable_function.eq_nullptr (copyable_function.assign_copy
        copyable_function.ctor_default
        ⟨some (.callable ⟨8, true⟩), .inplace (.obj 7 5 0)⟩
        ⟨0, [], 10, []⟩).1 = true
    ∧ (⟨some (.callable ⟨8, true⟩), .inplace (.obj 7 5 0)⟩ :
        copyable_function).m_vtable ≠ some .null
    ∧ copyable_function.obs
        ⟨some (.callable ⟨8, true⟩), .inplace (.obj 7 5 0)⟩
        ⟨0, [], 10, []⟩ = some (7, 5)
    ∧ copyable_function.obs (copyable_function.assign_copy
        copyable_function.ctor_default
        ⟨some (.callable ⟨8, true⟩), .inplace (.obj 7 5 0)⟩
        ⟨0, [], 10, []⟩).1
        (copyable_function.assign_copy copyable_function.ctor_default
          ⟨some (.callable ⟨8, true⟩), .inplace (.obj 7 5 0)⟩
          ⟨0, [], 10, []⟩).2 = none
    ∧ (inplace_copyable_function.assign_copy
        inplace_copyable_function.ctor_default
        ⟨some (.callable ⟨8, true⟩), .obj (.obj 7 5 0)⟩
        ⟨0, [], 10, []⟩).1.m_vtable = some .null
    ∧ inplace_copyable_function.obs (inplace_copyable_function.assign_copy
        inplace_copyable_function.ctor_default
        ⟨some (.callable ⟨8, true⟩), .obj (.obj 7 5 0)⟩
        ⟨0, [], 10, []⟩).1 = none
    ∧ inplace_copyable_function.obs
        (⟨some (.callable ⟨8, true⟩), .obj (.obj 7 5 0)⟩ :
          inplace_copyable_function) = some (7, 5) := by
  decide

/-- Claim C2 (code bug).  For a heap-stored payload (here size 24, above
the 16-byte capacity), copyable_function's type-erased copy constructs
the new heap object from the storage union's own bytes reinterpreted as
the callable — `reinterpret_cast<const Callable&>(src_storage.m_inplace)`
— instead of from the pointed-to heap object `*m_allocated`.  The copy's
heap object is therefore garbage: the copied container is non-null and
shares the source's table, but invoking it is undefined behaviour and
its observable behaviour does not match the source, contradicting the
claimed independent copy of the source's payload. -/
theorem heap_copy_constructs_from_pointer_bytes :
    (let a := copyable_function.ctor_callable ⟨24, true⟩ (.obj 7 5 0)
        ⟨0, [], 10, []⟩
     let b := copyable_function.ctor_copy a.1 a.2
     copyable_function.live_payload b.1 b.2 = some .garbage
     ∧ copyable_function.call false b.1 b.2 = .ub
     ∧ copyable_function.obs b.1 b.2 = none
     ∧ copyable_function.obs a.1 b.2 = some (7, 5)
     ∧ copyable_function.eq_nullptr b.1 = false
     ∧ b.1.m_vtable = a.1.m_vtable
     ∧ copyable_function.live_payload a.1 a.2 = some (.obj 7 5 0)) := by
  decide

/-- Claim C5 counterexample.  The claim states the table pointer is
updated only after the new payload is constructed.  In the statement
order of copyable_function's operator=(Callable&&) the table update
(position 1) comes before the payload construction (position 2), so the
construction does not precede the update. -/
theorem table_update_not_after_construct :
    ¬ (stepIndex .construct_payload copyable_function.assign_callable_order
        < stepIndex .update_table copyable_function.assign_callable_order) := by
  decide

/-- Claim C5 (amended).  In every owning container's constructor from a
callable and assignment from a callable, the table pointer is updated
BEFORE the new payload is constructed into storage (the statement order
is: destroy the old payload, update the table, construct the new
payload).  Consequently, a failure (exception) during payload
construction leaves the container's table already pointing at the new
type's table while its storage holds no live payload, shown here by
executing the assignment's statement prefix that stops at the
construction step. -/
theorem table_update_precedes_construct :
    stepIndex .update_table copyable_function.ctor_order
      < stepIndex .construct_payload copyable_function.ctor_order
    ∧ stepIndex .update_table copyable_function.assign_callable_order
      < stepIndex .construct_payload copyable_function.assign_callable_order
    ∧ stepIndex .update_table move_only_function.ctor_order
      < stepIndex .construct_payload move_only_function.ctor_order
    ∧ stepIndex .update_table move_only_function.assign_callable_order
      < stepIndex .construct_payload move_only_function.assign_callable_order
    ∧ stepIndex .update_table inplace_copyable_function.ctor_order
      < stepIndex .construct_payload inplace_copyable_function.ctor_order
    ∧ stepIndex .update_table inplace_copyable_function.assign_callable_order
      < stepIndex .construct_payload inplace_copyable_function.assign_callable_order
    ∧ stepIndex .update_table inplace_move_only_function.ctor_order
      < stepIndex .construct_payload inplace_move_only_function.ctor_order
    ∧ stepIndex .update_table inplace_move_only_function.assign_callable_order
      < stepIndex .construct_payload inplace_move_only_function.assign_callable_order
    ∧ (let pstate := (copyable_function.assign_callable_order.take 2).foldl
        (copyable_function.exec_step ⟨16, true⟩ (.obj 9 6 0))
        (⟨some (.callable ⟨8, true⟩), .inplace (.obj 7 5 0)⟩, ⟨0, [], 10, []⟩)
       pstate.1.m_vtable = some (.callable ⟨16, true⟩)
       ∧ copyable_function.live_payload pstate.1 pstate.2 = none) := by
  decide

/-- Claim C6 (confirmed).  The empty table's call operation terminates
for a non-throwing signature and throws std::bad_function_call for a
throwing one, in all four owning container families; the empty table's
destroy, copy (where present) and move operations are all no-ops; and a
container whose table pointer is the empty table dispatches its call
operator to exactly that call operation. -/
theorem empty_table_operations :
    (∀ (ne : Bool) (st : copyable_function_storage) (w : World),
      copyable_function_vtable.m_call ne .null st w
        = if ne then .terminated else .bad_call)
    ∧ (∀ (st : copyable_function_storage) (w : World),
      copyable_function_vtable.m_dtor .null st w = (st, w))
    ∧ (∀ (dst src : copyable_function_storage) (w : World),
      copyable_function_vtable.m_copy .null dst src w = (dst, w))
    ∧ (∀ (dst src : copyable_function_storage),
      copyable_function_vtable.m_move .null dst src = (dst, src))
    ∧ (∀ (ne : Bool) (st : copyable_function_storage) (w : World),
      move_only_function_vtable.m_call ne .null st w
        = if ne then .terminated else .bad_call)
    ∧ (∀ (st : copyable_function_storage) (w : World),
      move_only_function_vtable.m_dtor .null st w = (st, w))
    ∧ (∀ (dst src : copyable_function_storage),
      move_only_function_vtable.m_move .null dst src = (dst, src))
    ∧ (∀ (ne : Bool) (st : inplace_storage),
      inplace_copyable_function_vtable.m_call ne .null st
        = if ne then .terminated else .bad_call)
    ∧ (∀ (st : inplace_storage) (w : World),
      inplace_copyable_function_vtable.m_dtor .null st w = (st, w))
    ∧ (∀ (dst src : inplace_storage) (w : World),
      inplace_copyable_function_vtable.m_copy .null dst src w = (dst, w))
    ∧ (∀ (dst src : inplace_storage),
      inplace_copyable_function_vtable.m_move .null dst src = (dst, src))
    ∧ (∀ (ne : Bool) (st : inplace_storage),
      inplace_move_only_function_vtable.m_call ne .null st
        = if ne then .terminated else .bad_call)
    ∧ (∀ (st : inplace_storage) (w : World),
      inplace_move_only_function_vtable.m_dtor .null st w = (st, w))
    ∧ (∀ (dst src : inplace_storage),
      inplace_move_only_function_vtable.m_move .null dst src = (dst, src))
    ∧ (∀ (ne : Bool) (st : copyable_function_storage) (w : World),
      copyable_function.call ne ⟨some .null, st⟩ w
        = if ne then .terminated else .bad_call)
    ∧ (∀ (ne : Bool) (st : copyable_function_storage) (w : World),
      move_only_function.call ne ⟨some .null, st⟩ w
        = if ne then .terminated else .bad_call)
    ∧ (∀ (ne : Bool) (st : inplace_storage),
      inplace_copyable_function.call ne ⟨some .null, st⟩
        = if ne then .terminated else .bad_call)
    ∧ (∀ (ne : Bool) (st : inplace_storage),
      inplace_move_only_function.call ne ⟨some .null, st⟩
        = if ne then .terminated else .bad_call) := by
  refine ⟨fun _ _ _ => rfl, fun _ _ => rfl, fun _ _ _ => rfl, fun _ _ => rfl,
    fun _ _ _ => rfl, fun _ _ => rfl, fun _ _ => rfl,
    fun _ _ => rfl, fun _ _ => rfl, fun _ _ _ => rfl, fun _ _ => rfl,
    fun _ _ => rfl, fun _ _ => rfl, fun _ _ => rfl,
    fun _ _ _ => rfl, fun _ _ _ => rfl, fun _ _ => rfl, fun _ _ => rfl⟩

/-- Claim C7 (confirmed).  For the heap-fallback variants
(copyable_function and move_only_function) a concrete payload type is
stored inline iff its size is at most the capacity (two pointer widths)
and it is nothrow move constructible; otherwise the constructor stores a
pointer to a single new heap allocation holding the payload, and the
type-erased move for such heap-stored payloads transfers only the
pointer (source bytes unchanged, heap untouched). -/
theorem store_inplace_rule :
    (∀ ty : CallableType,
      copyable_function_storage.store_inplace ty = true
        ↔ (ty.size ≤ copyable_function_storage.capacity
            ∧ ty.is_nothrow_move_constructible = true))
    ∧ copyable_function_storage.capacity = 2 * ptr_size
    ∧ (∀ (ty : CallableType) (v : PayloadVal) (w : World),
      copyable_function_storage.store_inplace ty = true →
        (copyable_function.ctor_callable ty v w).1.m_storage = .inplace v
        ∧ (copyable_function.ctor_callable ty v w).2 = w)
    ∧ (∀ (ty : CallableType) (v : PayloadVal) (w : World),
      copyable_function_storage.store_inplace ty = false →
        (copyable_function.ctor_callable ty v w).1.m_storage
            = .allocated w.nextAddr
        ∧ (copyable_function.ctor_callable ty v w).2.heap
            = (w.nextAddr, v) :: w.heap)
    ∧ (∀ (ty : CallableType) (dst : copyable_function_storage) (a : Nat),
      copyable_function_storage.store_inplace ty = false →
        copyable_function_vtable.m_move (.callable ty) dst (.allocated a)
          = (.allocated a, .allocated a))
    ∧ (∀ (ty : CallableType) (v : PayloadVal) (w : World),
      copyable_function_storage.store_inplace ty = true →
        (move_only_function.ctor_callable ty v w).1.m_storage = .inplace v
        ∧ (move_only_function.ctor_callable ty v w).2 = w)
    ∧ (∀ (ty : CallableType) (v : PayloadVal) (w : World),
      copyable_function_storage.store_inplace ty = false →
        (move_only_function.ctor_callable ty v w).1.m_storage
            = .allocated w.nextAddr
        ∧ (move_only_function.ctor_callable ty v w).2.heap
            = (w.nextAddr, v) :: w.heap)
    ∧ (∀ (ty : CallableType) (dst : copyable_function_storage) (a : Nat),
      copyable_function_storage.store_inplace ty = false →
        move_only_function_vtable.m_move (.callable ty) dst (.allocated a)
          = (.allocated a, .allocated a)) := by
  refine ⟨?_, by decide, ?_, ?_, ?_, ?_, ?_, ?_⟩
  · intro ty
    simp [copyable_function_storage.store_inplace]
  · intro ty v w h
    simp [copyable_function.ctor_callable, copyable_function.ctor_order,
      copyable_function.exec_step, List.foldl, h]
  · intro ty v w h
    simp [copyable_function.ctor_callable, copyable_function.ctor_order,
      copyable_function.exec_step, List.foldl, h]
  · intro ty dst a h
    simp [copyable_function_vtable.m_move, h]
  · intro ty v w h
    simp [move_only_function.ctor_callable, move_only_function.ctor_order,
      move_only_function.exec_step, List.foldl, h]
  · intro ty v w h
    simp [move_only_function.ctor_callable, move_only_function.ctor_order,
      move_only_function.exec_step, List.foldl, h]
  · intro ty dst a h
    simp [move_only_function_vtable.m_move, h]

/-- Claim C7 witness: the rule and the pointer-transferring move
evaluated at concrete types (size 24 exceeds the 16-byte capacity; size
16 with a nothrow move is inline). -/
theorem store_inplace_rule_witness :
    copyable_function_vtable.m_move (.callable ⟨24, true⟩) .junk (.allocated 3)
      = (.allocated 3, .allocated 3)
    ∧ copyable_function_storage.store_inplace ⟨16, true⟩ = true
    ∧ (copyable_function.ctor_callable ⟨24, true⟩ (.obj 7 5 0)
        ⟨0, [], 10, []⟩).1.m_storage = .allocated 0 :=
  ⟨store_inplace_rule.2.2.2.2.1 ⟨24, true⟩ .junk 3 (by decide),
   (store_inplace_rule.1 ⟨16, true⟩).mpr (by decide),
   (store_inplace_rule.2.2.2.1 ⟨24, true⟩ (.obj 7 5 0)
      ⟨0, [], 10, []⟩ (by decide)).1⟩

/-- Claim C8 counterexample.  function_ref cannot be bound to a function
pointer value at all: the converting constructor's enable_if condition
excludes pointer types, so the claimed "stores the function pointer's
own value" behaviour does not exist for function_ref. -/
theorem function_ref_rejects_pointer :
    ¬ (function_ref.ctor_enabled function_pointer_traits = true) := by
  decide

/-- Claim C8 (amended).  function_ptr special-cases binding to a function
pointer value: assign stores the pointer's own value as the erased
target (never the address of the local parameter holding it) and selects
the trampoline instantiated for the pointer type; for non-pointer
callables it stores the referenced object's address.  function_ref, by
contrast, rejects pointer callables at compile time (its converting
constructor's enable_if excludes pointers) and stores the address of the
referenced object for the callables it accepts. -/
theorem pointer_binding_stores_value :
    (∀ (self : function_ptr) (v slot : Nat),
      (function_ptr.assign self (.pointer_value v) slot).m_target = .value v
      ∧ (function_ptr.assign self (.pointer_value v) slot).m_invoke_target
          = some .for_pointer_type)
    ∧ (∀ (self : function_ptr) (a slot : Nat),
      (function_ptr.assign self (.object_ref a) slot).m_target = .addr a)
    ∧ (∀ (v slot : Nat),
      (function_ptr.ctor_callable (.pointer_value v) slot).m_target = .value v)
    ∧ function_ptr.ctor_enabled function_pointer_traits = true
    ∧ function_ref.ctor_enabled function_pointer_traits = false
    ∧ (∀ a : Nat, (function_ref.ctor_callable a).m_target = .addr a) :=
  ⟨fun _ _ _ => ⟨rfl, rfl⟩, fun _ _ _ => rfl, fun _ _ => rfl,
   by decide, by decide, fun _ => rfl⟩

/-- Claim C3 counterexample.  function_ptr is a container variant, but
its move constructor and move assignment are defaulted member-wise
copies: after a move the source is unchanged and still tests non-null,
so "after d = move(c), c tests as empty/null" fails for it. -/
theorem function_ptr_move_keeps_source :
    (function_ptr.ctor_move ⟨.value 5, some .for_pointer_type⟩).2
      = (⟨.value 5, some .for_pointer_type⟩ : function_ptr)
    ∧ function_ptr.eq_nullptr
        (function_ptr.ctor_move ⟨.value 5, some .for_pointer_type⟩).2 = false
    ∧ function_ptr.eq_nullptr
        (function_ptr.assign_move function_ptr.ctor_default
          ⟨.value 5, some .for_pointer_type⟩).2 = false := by
  decide

/-- Claim C3 (amended).  For every OWNING container variant (the
non-owning function_ptr's defaulted move leaves the source bound, see
the counterexample): after move construction the source's table pointer
is exactly the empty table and the source tests null; the destination's
observable behaviour and owned resource equal the original's, and this
is preserved across any number of moves; move assignment likewise
empties the source, and the destination behaves like the source payload
(for the heap-fallback variants under the proviso that destroying the
destination's old payload does not alias the source's payload, which
always holds for distinct well-formed containers).  Moves never release
the moved resource; the closed scenario binds a payload owning resource
5, moves it three times, and releases exactly [5] only at final
destruction. -/
theorem owning_move_empties_source :
    (∀ c : copyable_function,
      (copyable_function.ctor_move c).2.m_vtable = some .null
      ∧ copyable_function.eq_nullptr (copyable_function.ctor_move c).2 = true)
    ∧ (∀ (c : copyable_function) (w : World),
      copyable_function.obs (copyable_function.ctor_move c).1 w
        = copyable_function.obs c w)
    ∧ (∀ (n : Nat) (c : copyable_function) (w : World),
      copyable_function.obs (copyable_function.move_chain n c) w
        = copyable_function.obs c w)
    ∧ (∀ (s o : copyable_function) (w : World),
      (copyable_function.assign_move s o w).1.2.m_vtable = some .null
      ∧ copyable_function.eq_nullptr
          (copyable_function.assign_move s o w).1.2 = true)
    ∧ (∀ (s o : copyable_function) (w : World),
      copyable_function.view_obs (deref_vtable o.m_vtable) o.m_storage
          (copyable_function_vtable.m_dtor (deref_vtable s.m_vtable)
            s.m_storage w).2
        = copyable_function.obs o w →
      copyable_function.obs (copyable_function.assign_move s o w).1.1
          (copyable_function.assign_move s o w).2
        = copyable_function.obs o w)
    ∧ (∀ c : move_only_function,
      (move_only_function.ctor_move c).2.m_vtable = some .null
      ∧ move_only_function.eq_nullptr (move_only_function.ctor_move c).2 = true)
    ∧ (∀ (c : move_only_function) (w : World),
      move_only_function.obs (move_only_function.ctor_move c).1 w
        = move_only_function.obs c w)
    ∧ (∀ (n : Nat) (c : move_only_function) (w : World),
      move_only_function.obs (move_only_function.move_chain n c) w
        = move_only_function.obs c w)
    ∧ (∀ (s o : move_only_function) (w : World),
      (move_only_function.assign_move s o w).1.2.m_vtable = some .null)
    ∧ (∀ c : inplace_copyable_function,
      (inplace_copyable_function.ctor_move c).2.m_vtable = some .null
      ∧ inplace_copyable_function.eq_nullptr
          (inplace_copyable_function.ctor_move c).2 = true)
    ∧ (∀ c : inplace_copyable_function,
      inplace_copyable_function.obs (inplace_copyable_function.ctor_move c).1
        = inplace_copyable_function.obs c)
    ∧ (∀ (n : Nat) (c : inplace_copyable_function),
      inplace_copyable_function.obs (inplace_copyable_function.move_chain n c)
        = inplace_copyable_function.obs c)
    ∧ (∀ (s o : inplace_copyable_function) (w : World),
      (inplace_copyable_function.assign_move s o w).1.2.m_vtable = some .null
      ∧ inplace_copyable_function.obs
          (inplace_copyable_function.assign_move s o w).1.1
        = inplace_copyable_function.obs o)
    ∧ (∀ c : inplace_move_only_function,
      (inplace_move_only_function.ctor_move c).2.m_vtable = some .null
      ∧ inplace_move_only_function.eq_nullptr
          (inplace_move_only_function.ctor_move c).2 = true)
    ∧ (∀ c : inplace_move_only_function,
      inplace_move_only_function.obs (inplace_move_only_function.ctor_move c).1
        = inplace_move_only_function.obs c)
    ∧ (∀ (n : Nat) (c : inplace_move_only_function),
      inplace_move_only_function.obs
          (inplace_move_only_function.move_chain n c)
        = inplace_move_only_function.obs c)
    ∧ (∀ (s o : inplace_move_only_function) (w : World),
      (inplace_move_only_function.assign_move s o w).1.2.m_vtable = some .null
      ∧ inplace_move_only_function.obs
          (inplace_move_only_function.assign_move s o w).1.1
        = inplace_move_only_function.obs o)
    ∧ (let c0 := copyable_function.ctor_callable ⟨8, true⟩ (.obj 7 5 0)
        ⟨0, [], 10, []⟩
       let c3 := copyable_function.move_chain 3 c0.1
       copyable_function.obs c3 c0.2 = some (7, 5)
       ∧ copyable_function.eq_nullptr c3 = false
       ∧ (copyable_function.destroy c3 c0.2).released = [5]) := by
  have hcf : ∀ (c : copyable_function) (w : World),
      copyable_function.obs (copyable_function.ctor_move c).1 w
        = copyable_function.obs c w := by
    intro c w
    exact cf_move_view (deref_vtable c.m_vtable) .junk c.m_storage w
  have hmof : ∀ (c : move_only_function) (w : World),
      move_only_function.obs (move_only_function.ctor_move c).1 w
        = move_only_function.obs c w := by
    intro c w
    exact mof_move_view (deref_vtable c.m_vtable) .junk c.m_storage w
  have hicf : ∀ c : inplace_copyable_function,
      inplace_copyable_function.obs (inplace_copyable_function.ctor_move c).1
        = inplace_copyable_function.obs c := by
    intro c
    exact icf_move_view (deref_vtable c.m_vtable) .junk c.m_storage
  have himof : ∀ c : inplace_move_only_function,
      inplace_move_only_function.obs
          (inplace_move_only_function.ctor_move c).1
        = inplace_move_only_function.obs c := by
    intro c
    exact imof_move_view (deref_vtable c.m_vtable) .junk c.m_storage
  refine ⟨fun c => ⟨rfl, rfl⟩, hcf, ?_, fun s o w => ⟨rfl, rfl⟩, ?_,
    fun c => ⟨rfl, rfl⟩, hmof, ?_, fun s o w => rfl,
    fun c => ⟨rfl, rfl⟩, hicf, ?_, ?_,
    fun c => ⟨rfl, rfl⟩, himof, ?_, ?_, by decide⟩
  · intro n
    induction n with
    | zero => intro c w; rfl
    | succ n ih =>
      intro c w
      exact (ih (copyable_function.ctor_move c).1 w).trans (hcf c w)
  · intro s o w h
    exact (cf_move_view (deref_vtable o.m_vtable) _ o.m_storage _).trans h
  · intro n
    induction n with
    | zero => intro c w; rfl
    | succ n ih =>
      intro c w
      exact (ih (move_only_function.ctor_move c).1 w).trans (hmof c w)
  · intro n
    induction n with
    | zero => intro c; rfl
    | succ n ih =>
      intro c
      exact (ih (inplace_copyable_function.ctor_move c).1).trans (hicf c)
  · intro s o w
    exact ⟨rfl, icf_move_view (deref_vtable o.m_vtable) _ o.m_storage⟩
  · intro n
    induction n with
    | zero => intro c; rfl
    | succ n ih =>
      intro c
      exact (ih (inplace_move_only_function.ctor_move c).1).trans (himof c)
  · intro s o w
    exact ⟨rfl, imof_move_view (deref_vtable o.m_vtable) _ o.m_storage⟩

/-- Claim C3 witness: the move-assignment conclusion applied at concrete
inputs (an empty destination move-assigned from a container holding an
inline payload), with the non-aliasing hypothesis discharged by
evaluation. -/
theorem owning_move_empties_source_witness :
    copyable_function.obs
      (copyable_function.assign_move copyable_function.ctor_default
        ⟨some (.callable ⟨8, true⟩), .inplace (.obj 7 5 0)⟩
        ⟨0, [], 10, []⟩).1.1
      (copyable_function.assign_move copyable_function.ctor_default
        ⟨some (.callable ⟨8, true⟩), .inplace (.obj 7 5 0)⟩
        ⟨0, [], 10, []⟩).2
    = copyable_function.obs
        ⟨some (.callable ⟨8, true⟩), .inplace (.obj 7 5 0)⟩
        ⟨0, [], 10, []⟩ :=
  owning_move_empties_source.2.2.2.2.1 copyable_function.ctor_default
    ⟨some (.callable ⟨8, true⟩), .inplace (.obj 7 5 0)⟩
    ⟨0, [], 10, []⟩ (by decide)

/-- Claim C4 counterexample.  The swap implementations contain no
self-swap guard: a.swap(a) executes the three type-erased moves with
both operands aliased.  On a container holding an inline payload the
payload is moved out to the temporary and move-constructed back, so the
container does not end up holding its original payload object (its move
count has advanced by two), refuting "explicitly guarded so that
swap(a, a) leaves a holding its original payload". -/
theorem swap_self_not_guarded :
    copyable_function.swap_self
        ⟨some (.callable ⟨8, true⟩), .inplace (.obj 7 5 0)⟩
      ≠ (⟨some (.callable ⟨8, true⟩), .inplace (.obj 7 5 0)⟩ :
          copyable_function)
    ∧ copyable_function.swap_self
        ⟨some (.callable ⟨8, true⟩), .inplace (.obj 7 5 0)⟩
      = ⟨some (.callable ⟨8, true⟩), .inplace (.obj 7 5 2)⟩
    ∧ inplace_move_only_function.swap_self
        ⟨some (.callable ⟨8, true⟩), .obj (.obj 7 5 0)⟩
      ≠ (⟨some (.callable ⟨8, true⟩), .obj (.obj 7 5 0)⟩ :
          inplace_move_only_function) := by
  decide

/-- Claim C4 (amended).  For every owning container type, swap is three
type-erased moves through a transient storage location plus a
table-pointer exchange; it exchanges the two sides' tables and
observable payloads (behaviour and held resource) for every pair of
states, including an empty side (the empty table's no-op move makes this
safe), and never touches the world (no resource is released or
allocated, by construction of swap).  Swapping twice restores both
sides' tables exactly and their observable behaviour and held-resource
counts.  Self-swap is NOT guarded; it nevertheless preserves the table
and the observable payload, the payload being moved through the
temporary rather than left untouched. -/
theorem swap_exchanges_and_restores :
    (∀ (a b : copyable_function) (w : World),
      (copyable_function.swap a b).1.m_vtable = b.m_vtable
      ∧ (copyable_function.swap a b).2.m_vtable = a.m_vtable
      ∧ copyable_function.obs (copyable_function.swap a b).1 w
          = copyable_function.obs b w
      ∧ copyable_function.obs (copyable_function.swap a b).2 w
          = copyable_function.obs a w)
    ∧ (∀ (a b : copyable_function) (w : World),
      (copyable_function.swap (copyable_function.swap a b).1
          (copyable_function.swap a b).2).1.m_vtable = a.m_vtable
      ∧ (copyable_function.swap (copyable_function.swap a b).1
          (copyable_function.swap a b).2).2.m_vtable = b.m_vtable
      ∧ copyable_function.obs (copyable_function.swap
          (copyable_function.swap a b).1
          (copyable_function.swap a b).2).1 w = copyable_function.obs a w
      ∧ copyable_function.obs (copyable_function.swap
          (copyable_function.swap a b).1
          (copyable_function.swap a b).2).2 w = copyable_function.obs b w)
    ∧ (∀ (a : copyable_function) (w : World),
      (copyable_function.swap_self a).m_vtable = a.m_vtable
      ∧ copyable_function.obs (copyable_function.swap_self a) w
          = copyable_function.obs a w)
    ∧ (∀ (a b : move_only_function) (w : World),
      (move_only_function.swap a b).1.m_vtable = b.m_vtable
      ∧ (move_only_function.swap a b).2.m_vtable = a.m_vtable
      ∧ move_only_function.obs (move_only_function.swap a b).1 w
          = move_only_function.obs b w
      ∧ move_only_function.obs (move_only_function.swap a b).2 w
          = move_only_function.obs a w)
    ∧ (∀ (a : move_only_function) (w : World),
      (move_only_function.swap_self a).m_vtable = a.m_vtable
      ∧ move_only_function.obs (move_only_function.swap_self a) w
          = move_only_function.obs a w)
    ∧ (∀ a b : inplace_copyable_function,
      (inplace_copyable_function.swap a b).1.m_vtable = b.m_vtable
      ∧ (inplace_copyable_function.swap a b).2.m_vtable = a.m_vtable
      ∧ inplace_copyable_function.obs (inplace_copyable_function.swap a b).1
          = inplace_copyable_function.obs b
      ∧ inplace_copyable_function.obs (inplace_copyable_function.swap a b).2
          = inplace_copyable_function.obs a)
    ∧ (∀ a : inplace_copyable_function,
      (inplace_copyable_function.swap_self a).m_vtable = a.m_vtable
      ∧ inplace_copyable_function.obs (inplace_copyable_function.swap_self a)
          = inplace_copyable_function.obs a)
    ∧ (∀ a b : inplace_move_only_function,
      (inplace_move_only_function.swap a b).1.m_vtable = b.m_vtable
      ∧ (inplace_move_only_function.swap a b).2.m_vtable = a.m_vtable
      ∧ inplace_move_only_function.obs (inplace_move_only_function.swap a b).1
          = inplace_move_only_function.obs b
      ∧ inplace_move_only_function.obs (inplace_move_only_function.swap a b).2
          = inplace_move_only_function.obs a)
    ∧ (∀ (a b : inplace_move_only_function),
      inplace_move_only_function.obs (inplace_move_only_function.swap
          (inplace_move_only_function.swap a b).1
          (inplace_move_only_function.swap a b).2).1
        = inplace_move_only_function.obs a
      ∧ inplace_move_only_function.obs (inplace_move_only_function.swap
          (inplace_move_only_function.swap a b).1
          (inplace_move_only_function.swap a b).2).2
        = inplace_move_only_function.obs b)
    ∧ (∀ a : inplace_move_only_function,
      (inplace_move_only_function.swap_self a).m_vtable = a.m_vtable
      ∧ inplace_move_only_function.obs
          (inplace_move_only_function.swap_self a)
        = inplace_move_only_function.obs a) := by
  have cf1 : ∀ (a b : copyable_function) (w : World),
      copyable_function.obs (copyable_function.swap a b).1 w
        = copyable_function.obs b w := by
    intro a b w
    exact cf_move_view (deref_vtable b.m_vtable) _ b.m_storage w
  have cf2 : ∀ (a b : copyable_function) (w : World),
      copyable_function.obs (copyable_function.swap a b).2 w
        = copyable_function.obs a w := by
    intro a b w
    exact (cf_move_view (deref_vtable a.m_vtable) _ _ w).trans
      (cf_move_view (deref_vtable a.m_vtable) .junk a.m_storage w)
  have mof1 : ∀ (a b : move_only_function) (w : World),
      move_only_function.obs (move_only_function.swap a b).1 w
        = move_only_function.obs b w := by
    intro a b w
    exact mof_move_view (deref_vtable b.m_vtable) _ b.m_storage w
  have mof2 : ∀ (a b : move_only_function) (w : World),
      move_only_function.obs (move_only_function.swap a b).2 w
        = move_only_function.obs a w := by
    intro a b w
    exact (mof_move_view (deref_vtable a.m_vtable) _ _ w).trans
      (mof_move_view (deref_vtable a.m_vtable) .junk a.m_storage w)
  have icf1 : ∀ a b : inplace_copyable_function,
      inplace_copyable_function.obs (inplace_copyable_function.swap a b).1
        = inplace_copyable_function.obs b := by
    intro a b
    exact icf_move_view (deref_vtable b.m_vtable) _ b.m_storage
  have icf2 : ∀ a b : inplace_copyable_function,
      inplace_copyable_function.obs (inplace_copyable_function.swap a b).2
        = inplace_copyable_function.obs a := by
    intro a b
    exact (icf_move_view (deref_vtable a.m_vtable) _ _).trans
      (icf_move_view (deref_vtable a.m_vtable) .junk a.m_storage)
  have imof1 : ∀ a b : inplace_move_only_function,
      inplace_move_only_function.obs (inplace_move_only_function.swap a b).1
        = inplace_move_only_function.obs b := by
    intro a b
    exact imof_move_view (deref_vtable b.m_vtable) _ b.m_storage
  have imof2 : ∀ a b : inplace_move_only_function,
      inplace_move_only_function.obs (inplace_move_only_function.swap a b).2
        = inplace_move_only_function.obs a := by
    intro a b
    exact (imof_move_view (deref_vtable a.m_vtable) _ _).trans
      (imof_move_view (deref_vtable a.m_vtable) .junk a.m_storage)
  refine ⟨fun a b w => ⟨rfl, rfl, cf1 a b w, cf2 a b w⟩,
    fun a b w => ⟨rfl, rfl,
      (cf1 _ _ w).trans (cf2 a b w), (cf2 _ _ w).trans (cf1 a b w)⟩,
    ?_,
    fun a b w => ⟨rfl, rfl, mof1 a b w, mof2 a b w⟩,
    ?_,
    fun a b => ⟨rfl, rfl, icf1 a b, icf2 a b⟩,
    ?_,
    fun a b => ⟨rfl, rfl, imof1 a b, imof2 a b⟩,
    fun a b => ⟨(imof1 _ _).trans (imof2 a b), (imof2 _ _).trans (imof1 a b)⟩,
    ?_⟩
  · intro a w
    refine ⟨rfl, ?_⟩
    exact (cf_move_view (deref_vtable a.m_vtable) _ _ w).trans
      (cf_move_view (deref_vtable a.m_vtable) .junk a.m_storage w)
  · intro a w
    refine ⟨rfl, ?_⟩
    exact (mof_move_view (deref_vtable a.m_vtable) _ _ w).trans
      (mof_move_view (deref_vtable a.m_vtable) .junk a.m_storage w)
  · intro a
    refine ⟨rfl, ?_⟩
    exact (icf_move_view (deref_vtable a.m_vtable) _ _).trans
      (icf_move_view (deref_vtable a.m_vtable) .junk a.m_storage)
  · intro a
    refine ⟨rfl, ?_⟩
    exact (imof_move_view (deref_vtable a.m_vtable) _ _).trans
      (imof_move_view (deref_vtable a.m_vtable) .junk a.m_storage)



/-- Claim C9 (confirmed).  For every owning container the table pointer
member is non-null after every operation: default construction, null
construction, null assignment and being moved from set it to the
distinguished empty table; binding a callable (construction or
assignment) sets it to the per-callable-type table; copy and move
construction/assignment and swap only transfer existing (non-null) table
pointers; and the empty state is represented exactly by pointing at the
empty table (operator== nullptr compares the table pointer against it),
never by a null table pointer. -/
theorem table_pointer_never_null :
    copyable_function.ctor_default.m_vtable = some .null
    ∧ copyable_function.ctor_nullptr.m_vtable = some .null
    ∧ (∀ (ty : CallableType) (v : PayloadVal) (w : World),
      (copyable_function.ctor_callable ty v w).1.m_vtable
        = some (.callable ty))
    ∧ (∀ (c : copyable_function) (w : World),
      (copyable_function.assign_nullptr c w).1.m_vtable = some .null)
    ∧ (∀ c : copyable_function,
      (copyable_function.ctor_move c).2.m_vtable = some .null
      ∧ (copyable_function.ctor_move c).1.m_vtable = c.m_vtable)
    ∧ (∀ (a : copyable_function) (w : World),
      (copyable_function.ctor_copy a w).1.m_vtable = a.m_vtable)
    ∧ (∀ (s o : copyable_function) (w : World),
      (copyable_function.assign_copy s o w).1.m_vtable = s.m_vtable)
    ∧ (∀ (s o : copyable_function) (w : World),
      (copyable_function.assign_move s o w).1.1.m_vtable = o.m_vtable
      ∧ (copyable_function.assign_move s o w).1.2.m_vtable = some .null)
    ∧ (∀ (ty : CallableType) (v : PayloadVal) (s : copyable_function)
        (w : World),
      (copyable_function.assign_callable ty v s w).1.m_vtable
        = some (.callable ty))
    ∧ (∀ a b : copyable_function,
      (copyable_function.swap a b).1.m_vtable = b.m_vtable
      ∧ (copyable_function.swap a b).2.m_vtable = a.m_vtable)
    ∧ (∀ c : copyable_function,
      copyable_function.eq_nullptr c = true ↔ c.m_vtable = some .null)
    ∧ move_only_function.ctor_default.m_vtable = some .null
    ∧ move_only_function.ctor_nullptr.m_vtable = some .null
    ∧ (∀ (ty : CallableType) (v : PayloadVal) (w : World),
      (move_only_function.ctor_callable ty v w).1.m_vtable
        = some (.callable ty))
    ∧ (∀ (c : move_only_function) (w : World),
      (move_only_function.assign_nullptr c w).1.m_vtable = some .null)
    ∧ (∀ c : move_only_function,
      (move_only_function.ctor_move c).2.m_vtable = some .null
      ∧ (move_only_function.ctor_move c).1.m_vtable = c.m_vtable)
    ∧ (∀ (s o : move_only_function) (w : World),
      (move_only_function.assign_move s o w).1.1.m_vtable = o.m_vtable
      ∧ (move_only_function.assign_move s o w).1.2.m_vtable = some .null)
    ∧ (∀ (ty : CallableType) (v : PayloadVal) (s : move_only_function)
        (w : World),
      (move_only_function.assign_callable ty v s w).1.m_vtable
        = some (.callable ty))
    ∧ (∀ a b : move_only_function,
      (move_only_function.swap a b).1.m_vtable = b.m_vtable
      ∧ (move_only_function.swap a b).2.m_vtable = a.m_vtable)
    ∧ (∀ c : move_only_function,
      move_only_function.eq_nullptr c = true ↔ c.m_vtable = some .null)
    ∧ inplace_copyable_function.ctor_default.m_vtable = some .null
    ∧ inplace_copyable_function.ctor_nullptr.m_vtable = some .null
    ∧ (∀ (ty : CallableType) (v : PayloadVal) (w : World),
      (inplace_copyable_function.ctor_callable ty v w).1.m_vtable
        = some (.callable ty))
    ∧ (∀ (c : inplace_copyable_function) (w : World),
      (inplace_copyable_function.assign_nullptr c w).1.m_vtable = some .null)
    ∧ (∀ c : inplace_copyable_function,
      (inplace_copyable_function.ctor_move c).2.m_vtable = some .null
      ∧ (inplace_copyable_function.ctor_move c).1.m_vtable = c.m_vtable)
    ∧ (∀ (a : inplace_copyable_function) (w : World),
      (inplace_copyable_function.ctor_copy a w).1.m_vtable = a.m_vtable)
    ∧ (∀ (s o : inplace_copyable_function) (w : World),
      (inplace_copyable_function.assign_copy s o w).1.m_vtable = s.m_vtable)
    ∧ (∀ (s o : inplace_copyable_function) (w : World),
      (inplace_copyable_function.assign_move s o w).1.1.m_vtable = o.m_vtable
      ∧ (inplace_copyable_function.assign_move s o w).1.2.m_vtable
          = some .null)
    ∧ (∀ (ty : CallableType) (v : PayloadVal)
        (s : inplace_copyable_function) (w : World),
      (inplace_copyable_function.assign_callable ty v s w).1.m_vtable
        = some (.callable ty))
    ∧ (∀ a b : inplace_copyable_function,
      (inplace_copyable_function.swap a b).1.m_vtable = b.m_vtable
      ∧ (inplace_copyable_function.swap a b).2.m_vtable = a.m_vtable)
    ∧ (∀ c : inplace_copyable_function,
      inplace_copyable_function.eq_nullptr c = true
        ↔ c.m_vtable = some .null)
    ∧ inplace_move_only_function.ctor_default.m_vtable = some .null
    ∧ inplace_move_only_function.ctor_nullptr.m_vtable = some .null
    ∧ (∀ (ty : CallableType) (v : PayloadVal) (w : World),
      (inplace_move_only_function.ctor_callable ty v w).1.m_vtable
        = some (.callable ty))
    ∧ (∀ (c : inplace_move_only_function) (w : World),
      (inplace_move_only_function.assign_nullptr c w).1.m_vtable
        = some .null)
    ∧ (∀ c : inplace_move_only_function,
      (inplace_move_only_function.ctor_move c).2.m_vtable = some .null
      ∧ (inplace_move_only_function.ctor_move c).1.m_vtable = c.m_vtable)
    ∧ (∀ (s o : inplace_move_only_function) (w : World),
      (inplace_move_only_function.assign_move s o w).1.1.m_vtable
          = o.m_vtable
      ∧ (inplace_move_only_function.assign_move s o w).1.2.m_vtable
          = some .null)
    ∧ (∀ (ty : CallableType) (v : PayloadVal)
        (s : inplace_move_only_function) (w : World),
      (inplace_move_only_function.assign_callable ty v s w).1.m_vtable
        = some (.callable ty))
    ∧ (∀ a b : inplace_move_only_function,
      (inplace_move_only_function.swap a b).1.m_vtable = b.m_vtable
      ∧ (inplace_move_only_function.swap a b).2.m_vtable = a.m_vtable)
    ∧ (∀ c : inplace_move_only_function,
      inplace_move_only_function.eq_nullptr c = true
        ↔ c.m_vtable = some .null) := by
  refine ⟨rfl, rfl, ?_, fun c w => rfl, fun c => ⟨rfl, rfl⟩, fun a w => rfl,
    fun s o w => rfl, fun s o w => ⟨rfl, rfl⟩, ?_, fun a b => ⟨rfl, rfl⟩,
    fun c => by simp [copyable_function.eq_nullptr],
    rfl, rfl, ?_, fun c w => rfl, fun c => ⟨rfl, rfl⟩,
    fun s o w => ⟨rfl, rfl⟩, ?_, fun a b => ⟨rfl, rfl⟩,
    fun c => by simp [move_only_function.eq_nullptr],
    rfl, rfl, fun ty v w => rfl, fun c w => rfl, fun c => ⟨rfl, rfl⟩,
    fun a w => rfl, fun s o w => rfl, fun s o w => ⟨rfl, rfl⟩,
    fun ty v s w => rfl, fun a b => ⟨rfl, rfl⟩,
    fun c => by simp [inplace_copyable_function.eq_nullptr],
    rfl, rfl, fun ty v w => rfl, fun c w => rfl, fun c => ⟨rfl, rfl⟩,
    fun s o w => ⟨rfl, rfl⟩, fun ty v s w => rfl,
    fun a b => ⟨rfl, rfl⟩,
    fun c => by simp [inplace_move_only_function.eq_nullptr]⟩
  · intro ty v w
    by_cases h : copyable_function_storage.store_inplace ty <;>
      simp [copyable_function.ctor_callable, copyable_function.ctor_order,
        copyable_function.exec_step, List.foldl, h]
  · intro ty v s w
    by_cases h : copyable_function_storage.store_inplace ty <;>
      simp [copyable_function.assign_callable,
        copyable_function.assign_callable_order,
        copyable_function.exec_step, List.foldl, h]
  · intro ty v w
    by_cases h : copyable_function_storage.store_inplace ty <;>
      simp [move_only_function.ctor_callable, move_only_function.ctor_order,
        move_only_function.exec_step, List.foldl, h]
  · intro ty v s w
    by_cases h : copyable_function_storage.store_inplace ty <;>
      simp [move_only_function.assign_callable,
        move_only_function.assign_callable_order,
        move_only_function.exec_step, List.foldl, h]

/-- Claim C9 witness: the empty-state characterisation applied to the
default-constructed container. -/
theorem table_pointer_never_null_witness :
    copyable_function.eq_nullptr copyable_function.ctor_default = true :=
  (table_pointer_never_null.2.2.2.2.2.2.2.2.2.2.1
    copyable_function.ctor_default).mpr rfl

/-- Claim C10 (confirmed).  For every owning container that currently
holds a payload (observable behaviour `b`, owned resource `r`),
assigning nullptr runs the held payload's destroy operation exactly once
(the released list grows by exactly [r]), leaves the container testing
equal to nullptr, and makes the container's subsequent destruction a
no-op with respect to the payload (the world is unchanged, so the
payload is never destroyed twice). -/
theorem assign_null_destroys_once :
    (∀ (c : copyable_function) (w : World) (b r : Nat),
      copyable_function.obs c w = some (b, r) →
        (copyable_function.assign_nullptr c w).2.released = w.released ++ [r]
        ∧ copyable_function.eq_nullptr
            (copyable_function.assign_nullptr c w).1 = true
        ∧ copyable_function.destroy (copyable_function.assign_nullptr c w).1
            (copyable_function.assign_nullptr c w).2
          = (copyable_function.assign_nullptr c w).2)
    ∧ (∀ (c : move_only_function) (w : World) (b r : Nat),
      move_only_function.obs c w = some (b, r) →
        (move_only_function.assign_nullptr c w).2.released = w.released ++ [r]
        ∧ move_only_function.eq_nullptr
            (move_only_function.assign_nullptr c w).1 = true
        ∧ move_only_function.destroy (move_only_function.assign_nullptr c w).1
            (move_only_function.assign_nullptr c w).2
          = (move_only_function.assign_nullptr c w).2)
    ∧ (∀ (c : inplace_copyable_function) (w : World) (b r : Nat),
      inplace_copyable_function.obs c = some (b, r) →
        (inplace_copyable_function.assign_nullptr c w).2.released
            = w.released ++ [r]
        ∧ inplace_copyable_function.eq_nullptr
            (inplace_copyable_function.assign_nullptr c w).1 = true
        ∧ inplace_copyable_function.destroy
            (inplace_copyable_function.assign_nullptr c w).1
            (inplace_copyable_function.assign_nullptr c w).2
          = (inplace_copyable_function.assign_nullptr c w).2)
    ∧ (∀ (c : inplace_move_only_function) (w : World) (b r : Nat),
      inplace_move_only_function.obs c = some (b, r) →
        (inplace_move_only_function.assign_nullptr c w).2.released
            = w.released ++ [r]
        ∧ inplace_move_only_function.eq_nullptr
            (inplace_move_only_function.assign_nullptr c w).1 = true
        ∧ inplace_move_only_function.destroy
            (inplace_move_only_function.assign_nullptr c w).1
            (inplace_move_only_function.assign_nullptr c w).2
          = (inplace_move_only_function.assign_nullptr c w).2) := by
  refine ⟨?_, ?_, ?_, ?_⟩
  · intro c w b r h
    obtain ⟨ovt, st⟩ := c
    refine ⟨?_, rfl, rfl⟩
    cases hvt : deref_vtable ovt with
    | null =>
      simp [copyable_function.obs, copyable_function.view_obs,
        copyable_function.view_live, hvt] at h
    | callable ty =>
      by_cases hip : copyable_function_storage.store_inplace ty
      · cases st with
        | inplace v =>
          cases v with
          | obj b2 r2 m2 =>
            simp [copyable_function.obs, copyable_function.view_obs,
              copyable_function.view_live, hvt, hip] at h
            simp [copyable_function.assign_nullptr,
              copyable_function_vtable.m_dtor, hvt, hip,
              copyable_function_storage.as_inplace, PayloadVal.releases,
              h.2]
          | garbage =>
            simp [copyable_function.obs, copyable_function.view_obs,
              copyable_function.view_live, hvt, hip] at h
        | allocated a =>
          simp [copyable_function.obs, copyable_function.view_obs,
            copyable_function.view_live, hvt, hip] at h
        | junk =>
          simp [copyable_function.obs, copyable_function.view_obs,
            copyable_function.view_live, hvt, hip] at h
      · cases st with
        | inplace v =>
          simp [copyable_function.obs, copyable_function.view_obs,
            copyable_function.view_live, hvt, hip] at h
        | allocated a =>
          cases hl : heapLookup a w.heap with
          | none =>
            simp [copyable_function.obs, copyable_function.view_obs,
              copyable_function.view_live, hvt, hip, hl] at h
          | some v =>
            cases v with
            | obj b2 r2 m2 =>
              simp [copyable_function.obs, copyable_function.view_obs,
                copyable_function.view_live, hvt, hip, hl] at h
              simp [copyable_function.assign_nullptr,
                copyable_function_vtable.m_dtor, hvt, hip, heapFree, hl,
                PayloadVal.releases, h.2]
            | garbage =>
              simp [copyable_function.obs, copyable_function.view_obs,
                copyable_function.view_live, hvt, hip, hl] at h
        | junk =>
          simp [copyable_function.obs, copyable_function.view_obs,
            copyable_function.view_live, hvt, hip] at h
  · intro c w b r h
    obtain ⟨ovt, st⟩ := c
    refine ⟨?_, rfl, rfl⟩
    cases hvt : deref_vtable ovt with
    | null =>
      simp [move_only_function.obs, copyable_function.view_obs,
        copyable_function.view_live, hvt] at h
    | callable ty =>
      by_cases hip : copyable_function_storage.store_inplace ty
      · cases st with
        | inplace v =>
          cases v with
          | obj b2 r2 m2 =>
            simp [move_only_function.obs, copyable_function.view_obs,
              copyable_function.view_live, hvt, hip] at h
            simp [move_only_function.assign_nullptr,
              move_only_function_vtable.m_dtor, hvt, hip,
              copyable_function_storage.as_inplace, PayloadVal.releases,
              h.2]
          | garbage =>
            simp [move_only_function.obs, copyable_function.view_obs,
              copyable_function.view_live, hvt, hip] at h
        | allocated a =>
          simp [move_only_function.obs, copyable_function.view_obs,
            copyable_function.view_live, hvt, hip] at h
        | junk =>
          simp [move_only_function.obs, copyable_function.view_obs,
            copyable_function.view_live, hvt, hip] at h
      · cases st with
        | inplace v =>
          simp [move_only_function.obs, copyable_function.view_obs,
            copyable_function.view_live, hvt, hip] at h
        | allocated a =>
          cases hl : heapLookup a w.heap with
          | none =>
            simp [move_only_function.obs, copyable_function.view_obs,
              copyable_function.view_live, hvt, hip, hl] at h
          | some v =>
            cases v with
            | obj b2 r2 m2 =>
              simp [move_only_function.obs, copyable_function.view_obs,
                copyable_function.view_live, hvt, hip, hl] at h
              simp [move_only_function.assign_nullptr,
                move_only_function_vtable.m_dtor, hvt, hip, heapFree, hl,
                PayloadVal.releases, h.2]
            | garbage =>
              simp [move_only_function.obs, copyable_function.view_obs,
                copyable_function.view_live, hvt, hip, hl] at h
        | junk =>
          simp [move_only_function.obs, copyable_function.view_obs,
            copyable_function.view_live, hvt, hip] at h
  · intro c w b r h
    obtain ⟨ovt, st⟩ := c
    refine ⟨?_, rfl, rfl⟩
    cases hvt : deref_vtable ovt with
    | null =>
      simp [inplace_copyable_function.obs, inplace_copyable_function.view_obs,
        inplace_copyable_function.view_live, hvt] at h
    | callable ty =>
      cases st with
      | obj v =>
        cases v with
        | obj b2 r2 m2 =>
          simp [inplace_copyable_function.obs,
            inplace_copyable_function.view_obs,
            inplace_copyable_function.view_live, hvt] at h
          simp [inplace_copyable_function.assign_nullptr,
            inplace_copyable_function_vtable.m_dtor, hvt,
            inplace_storage.as_payload, PayloadVal.releases, h.2]
        | garbage =>
          simp [inplace_copyable_function.obs,
            inplace_copyable_function.view_obs,
            inplace_copyable_function.view_live, hvt] at h
      | junk =>
        simp [inplace_copyable_function.obs,
          inplace_copyable_function.view_obs,
          inplace_copyable_function.view_live, hvt] at h
  · intro c w b r h
    obtain ⟨ovt, st⟩ := c
    refine ⟨?_, rfl, rfl⟩
    cases hvt : deref_vtable ovt with
    | null =>
      simp [inplace_move_only_function.obs,
        inplace_copyable_function.view_obs,
        inplace_copyable_function.view_live, hvt] at h
    | callable ty =>
      cases st with
      | obj v =>
        cases v with
        | obj b2 r2 m2 =>
          simp [inplace_move_only_function.obs,
            inplace_copyable_function.view_obs,
            inplace_copyable_function.view_live, hvt] at h
          simp [inplace_move_only_function.assign_nullptr,
            inplace_move_only_function_vtable.m_dtor, hvt,
            inplace_storage.as_payload, PayloadVal.releases, h.2]
        | garbage =>
          simp [inplace_move_only_function.obs,
            inplace_copyable_function.view_obs,
            inplace_copyable_function.view_live, hvt] at h
      | junk =>
        simp [inplace_move_only_function.obs,
          inplace_copyable_function.view_obs,
          inplace_copyable_function.view_live, hvt] at h

/-- Claim C10 witness: null assignment applied to a concrete
copyable_function holding an inline payload owning resource 5 releases
exactly [5]. -/
theorem assign_null_destroys_once_witness :
    (copyable_function.assign_nullptr
        ⟨some (.callable ⟨8, true⟩), .inplace (.obj 7 5 0)⟩
        ⟨0, [], 10, []⟩).2.released = [] ++ [5]
    ∧ copyable_function.eq_nullptr (copyable_function.assign_nullptr
        ⟨some (.callable ⟨8, true⟩), .inplace (.obj 7 5 0)⟩
        ⟨0, [], 10, []⟩).1 = true :=
  ⟨(assign_null_destroys_once.1
      ⟨some (.callable ⟨8, true⟩), .inplace (.obj 7 5 0)⟩
      ⟨0, [], 10, []⟩ 7 5 (by decide)).1,
   (assign_null_destroys_once.1
      ⟨some (.callable ⟨8, true⟩), .inplace (.obj 7 5 0)⟩
      ⟨0, [], 10, []⟩ 7 5 (by decide)).2.1⟩
